import Mathlib

/-!
Verification development for the natural-language-processing pipeline of the
airtable-mcp repository (`src/typescript/app/nlp`).  The TypeScript sources are
shallowly embedded: strings are `List Char`, JavaScript numbers appearing in the
confidence computations are exact rationals (`ℚ`), optional/nullable values are
`Option`, and JavaScript regular expressions are embedded through a small
backtracking matcher (`matchAtoms` / `matchSeq`) whose terms transliterate the
regex literals of the source.  The matcher reproduces the JS semantics that the
source relies on: leftmost match, alternation tried left to right, greedy and
lazy single-character-class quantifiers, optional groups, word boundaries, the
end anchor, and the `lastIndex` statefulness of `RegExp.test` on `/g` regexes.
-/

/- The kernel unfolds everything; these elaborator-level reducibility hints
let `decide` evaluate the rational arithmetic of the confidence scores. -/
attribute [local semireducible] Rat.add Rat.mul Rat.inv Rat.sub Rat.ofScientific

/-! ### Character classes used by the source regexes -/

/-- JS `\s` (the whitespace characters that occur in the embedded inputs). -/
def isWsChar (c : Char) : Bool :=
  c = ' ' || c = '\t' || c = '\n' || c = '\r' || c = '\x0b' || c = '\x0c'

/-- JS `\w` = `[A-Za-z0-9_]`. -/
def isWordChar (c : Char) : Bool :=
  ('a' ≤ c && c ≤ 'z') || ('A' ≤ c && c ≤ 'Z') || ('0' ≤ c && c ≤ '9') || c = '_'

def isDigitChar (c : Char) : Bool := '0' ≤ c && c ≤ '9'

def isAsciiLower (c : Char) : Bool := 'a' ≤ c && c ≤ 'z'

def isAsciiUpper (c : Char) : Bool := 'A' ≤ c && c ≤ 'Z'

def isAsciiAlpha (c : Char) : Bool := isAsciiLower c || isAsciiUpper c

/-- The accented letters that the source regex classes spell out (`áéíóúñÑ`). -/
def isAccented (c : Char) : Bool :=
  c = 'á' || c = 'é' || c = 'í' || c = 'ó' || c = 'ú' || c = 'ñ' || c = 'Ñ'

/-- `String.prototype.toLowerCase`, restricted to the alphabet of this system
(ASCII plus the accented uppercase letters appearing in the lexicon). -/
def toLowerJS (c : Char) : Char :=
  if isAsciiUpper c then Char.ofNat (c.toNat + 32)
  else if c = 'Á' then 'á' else if c = 'É' then 'é' else if c = 'Í' then 'í'
  else if c = 'Ó' then 'ó' else if c = 'Ú' then 'ú' else if c = 'Ñ' then 'ñ'
  else c

/-! ### A small regex engine

Atoms quantify single-character classes only (all the source regexes are of this
shape).  `matchAtoms` returns every end position a sequence of atoms can reach
from a start position, in JS backtracking preference order (greedy quantifiers
try long first, lazy ones short first, alternatives in listed order), so taking
the head of the list yields exactly the match JS would select. -/

inductive Atom where
  /-- one character of a class -/
  | cls (p : Char → Bool)
  /-- `p*`, `p+`, `p*?`, `p+?`: a quantified class; `lzy` selects lazy order,
  `min1` requires at least one character -/
  | star (lzy : Bool) (min1 : Bool) (p : Char → Bool)
  /-- the end anchor `$` (no `m` flag anywhere in the source) -/
  | eol
  /-- the word boundary `\b` -/
  | bdry

/-- A regex element: a group of alternatives, each a sequence of atoms.
`opt := true` renders a trailing `?` (greedy: presence tried first).
Plain atoms are represented as one-alternative groups. -/
inductive RElem where
  | grp (opt : Bool) (alts : List (List Atom))

def charAt? (s : List Char) (i : Nat) : Option Char := s.get? i

def isWordAt (s : List Char) (i : Nat) : Bool :=
  match charAt? s i with
  | some c => isWordChar c
  | none => false

/-- Length of the maximal run of class-`p` characters starting at `i`. -/
def runLen (p : Char → Bool) (s : List Char) (i : Nat) : Nat :=
  ((s.drop i).takeWhile p).length

/-- Candidate consumption counts for a quantifier over a run of length `n`,
in preference order. -/
def starKs (lzy min1 : Bool) (n : Nat) : List Nat :=
  let lo := if min1 then 1 else 0
  if n < lo then []
  else
    let ks := (List.range (n + 1 - lo)).map (· + lo)
    if lzy then ks else ks.reverse

/-- All end positions reachable by matching the atom sequence at position `i`,
in backtracking preference order. -/
def matchAtoms (s : List Char) : List Atom → Nat → List Nat
  | [], i => [i]
  | Atom.cls p :: rest, i =>
      match charAt? s i with
      | some c => if p c then matchAtoms s rest (i + 1) else []
      | none => []
  | Atom.star lzy min1 p :: rest, i =>
      (starKs lzy min1 (runLen p s i)).flatMap (fun k => matchAtoms s rest (i + k))
  | Atom.eol :: rest, i =>
      if i = s.length then matchAtoms s rest i else []
  | Atom.bdry :: rest, i =>
      let prevW := if i = 0 then false else isWordAt s (i - 1)
      if prevW ≠ isWordAt s i then matchAtoms s rest i else []

/-- All end positions reachable by matching the element sequence at `i`,
in backtracking preference order. -/
def matchSeq (s : List Char) : List RElem → Nat → List Nat
  | [], i => [i]
  | RElem.grp opt alts :: rest, i =>
      let br := alts.flatMap (fun alt => matchAtoms s alt i)
      let br := if opt then br ++ [i] else br
      br.flatMap (fun j => matchSeq s rest j)

/-- Scan start positions `j, j+1, …` (at most `fuel` of them) for the first one
where the pattern matches; returns `(start, end)` of the JS-selected match. -/
def searchAux (s : List Char) (pat : List RElem) : Nat → Nat → Option (Nat × Nat)
  | 0, _ => none
  | fuel + 1, j =>
      match (matchSeq s pat j).head? with
      | some e => some (j, e)
      | none => searchAux s pat fuel (j + 1)

/-- First match of `pat` in `s` starting at or after index `li`
(the search `RegExpBuiltinExec` performs from `lastIndex`). -/
def searchFromIdx (s : List Char) (pat : List RElem) (li : Nat) : Option (Nat × Nat) :=
  if li > s.length then none else searchAux s pat (s.length + 1 - li) li

/-- `regex.test(s)` for a `/g` regex with current `lastIndex = li`:
returns the boolean result and the updated `lastIndex` (end of the match on
success, `0` on failure — the statefulness the IntentMapper inherits by
storing its compiled patterns). -/
def testG (pat : List RElem) (s : List Char) (li : Nat) : Bool × Nat :=
  match searchFromIdx s pat li with
  | some (_, e) => (true, e)
  | none => (false, 0)

/-- `regex.test(s)` / `s.match(regex)` success for a regex without `/g`
(fresh `lastIndex = 0` every call). -/
def testOnce (pat : List RElem) (s : List Char) : Bool :=
  (searchFromIdx s pat 0).isSome

/-! Pattern-building helpers (each pattern term below transliterates one regex
literal of the source). -/

/-- one literal character -/
def chr (c : Char) : Atom := Atom.cls (fun d => d = c)

/-- one literal character under the `/i` flag -/
def chrI (c : Char) : Atom := Atom.cls (fun d => toLowerJS d = c)

/-- a literal word, case-sensitively -/
def str (w : String) : List Atom := w.toList.map chr

/-- a literal word under the `/i` flag (the source writes the letters in
lower case) -/
def strI (w : String) : List Atom := w.toList.map chrI

/-- `\s+` -/
def wsp : Atom := Atom.star false true isWsChar

/-- `\s*` -/
def wss : Atom := Atom.star false false isWsChar

/-- wrap a sequence of atoms as a single mandatory element -/
def seqA (atoms : List Atom) : RElem := RElem.grp false [atoms]

/-- a literal word (under `/i`) as one element -/
def W (w : String) : RElem := seqA (strI w)

/-- `\s+` as one element -/
def S : RElem := seqA [wsp]

/-- `\w+` as one element -/
def WPLUS : RElem := seqA [Atom.star false true isWordChar]

/-- `\d+` as one element -/
def DPLUS : RElem := seqA [Atom.star false true isDigitChar]

/-- `a.includes(b)` on strings: `w` occurs as a contiguous substring of `s`. -/
def includesL (w : List Char) : List Char → Bool
  | [] => w.isPrefixOf []
  | c :: cs => w.isPrefixOf (c :: cs) || includesL w cs

/-- `a.includes(b)` with a literal search string. -/
def includes (s : List Char) (w : String) : Bool := includesL w.toList s

/-! ### Data model (`src/typescript/app/types/nlp.ts`) -/

/-- The `IntentType` enumeration. -/
inductive IntentType where
  | LIST_BASES | LIST_RECORDS | CREATE_RECORD | UPDATE_RECORD | DELETE_RECORD
  | SEARCH_RECORDS | LIST_TABLES | GET_RECORD | CREATE_WEBHOOK | LIST_WEBHOOKS
  | DELETE_WEBHOOK | GET_WEBHOOK_PAYLOADS | GET_BASE_SCHEMA | DESCRIBE_TABLE
  | CREATE_TABLE | DELETE_TABLE | UPDATE_TABLE | CREATE_FIELD | DELETE_FIELD
  | UPDATE_FIELD | LIST_FIELD_TYPES | BATCH_CREATE_RECORDS | BATCH_UPDATE_RECORDS
  | BATCH_DELETE_RECORDS | BATCH_UPSERT_RECORDS | UPLOAD_ATTACHMENT
  | LIST_COLLABORATORS | LIST_SHARES | CREATE_VIEW | GET_VIEW_METADATA
  | GET_TABLE_VIEWS | CREATE_BASE | ANALYZE_DATA | CREATE_REPORT | DATA_INSIGHTS
  | OPTIMIZE_WORKFLOW | SMART_SCHEMA_DESIGN | DATA_QUALITY_AUDIT
  | PREDICTIVE_ANALYTICS | NATURAL_LANGUAGE_QUERY | SMART_DATA_TRANSFORMATION
  | AUTOMATION_RECOMMENDATIONS | UNKNOWN
deriving DecidableEq, Repr

/-- The string value of each `IntentType` enum member (used by
`intent.includes('batch_')` in the validation engine). -/
def intentStr : IntentType → String
  | .LIST_BASES => "list_bases" | .LIST_RECORDS => "list_records"
  | .CREATE_RECORD => "create_record" | .UPDATE_RECORD => "update_record"
  | .DELETE_RECORD => "delete_record" | .SEARCH_RECORDS => "search_records"
  | .LIST_TABLES => "list_tables" | .GET_RECORD => "get_record"
  | .CREATE_WEBHOOK => "create_webhook" | .LIST_WEBHOOKS => "list_webhooks"
  | .DELETE_WEBHOOK => "delete_webhook"
  | .GET_WEBHOOK_PAYLOADS => "get_webhook_payloads"
  | .GET_BASE_SCHEMA => "get_base_schema" | .DESCRIBE_TABLE => "describe_table"
  | .CREATE_TABLE => "create_table" | .DELETE_TABLE => "delete_table"
  | .UPDATE_TABLE => "update_table" | .CREATE_FIELD => "create_field"
  | .DELETE_FIELD => "delete_field" | .UPDATE_FIELD => "update_field"
  | .LIST_FIELD_TYPES => "list_field_types"
  | .BATCH_CREATE_RECORDS => "batch_create_records"
  | .BATCH_UPDATE_RECORDS => "batch_update_records"
  | .BATCH_DELETE_RECORDS => "batch_delete_records"
  | .BATCH_UPSERT_RECORDS => "batch_upsert_records"
  | .UPLOAD_ATTACHMENT => "upload_attachment"
  | .LIST_COLLABORATORS => "list_collaborators" | .LIST_SHARES => "list_shares"
  | .CREATE_VIEW => "create_view" | .GET_VIEW_METADATA => "get_view_metadata"
  | .GET_TABLE_VIEWS => "get_table_views" | .CREATE_BASE => "create_base"
  | .ANALYZE_DATA => "analyze_data" | .CREATE_REPORT => "create_report"
  | .DATA_INSIGHTS => "data_insights" | .OPTIMIZE_WORKFLOW => "optimize_workflow"
  | .SMART_SCHEMA_DESIGN => "smart_schema_design"
  | .DATA_QUALITY_AUDIT => "data_quality_audit"
  | .PREDICTIVE_ANALYTICS => "predictive_analytics"
  | .NATURAL_LANGUAGE_QUERY => "natural_language_query"
  | .SMART_DATA_TRANSFORMATION => "smart_data_transformation"
  | .AUTOMATION_RECOMMENDATIONS => "automation_recommendations"
  | .UNKNOWN => "unknown"

/-- `PreviousQuery` (the fields the orchestrator actually passes to
`updateContext`; the call site omits `timestamp`, so it is always absent). -/
structure PreviousQuery where
  query : List Char
  intent : IntentType
  result : Option (List Char) := none
deriving DecidableEq, Repr

structure MentionedEntities where
  tables : List (List Char)
  fields : List (List Char)
  records : List (List Char)
deriving DecidableEq, Repr

structure ConversationPreferences where
  language : List Char
  dateFormat : List Char
  responseFormat : List Char
deriving DecidableEq, Repr

structure ConversationContext where
  sessionId : List Char
  userId : List Char
  currentBaseId : Option (List Char)
  currentTable : Option (List Char)
  currentRecordId : Option (List Char)
  previousQueries : List PreviousQuery
  mentionedEntities : MentionedEntities
  preferences : ConversationPreferences
deriving DecidableEq, Repr

/-- JS truthiness of a nullable/optional string (`null`, `undefined` and `""`
are falsy). -/
def truthyStr : Option (List Char) → Bool
  | none => false
  | some s => s ≠ []

/-- JS truthiness of an optional number (`0` is falsy). -/
def truthyNum : Option Nat → Bool
  | none => false
  | some n => n ≠ 0

structure ExtractedEntities where
  tableName : Option (List Char) := none
  recordId : Option (List Char) := none
  fieldName : Option (List Char) := none
  baseId : Option (List Char) := none
  webhookUrl : Option (List Char) := none
  webhookId : Option (List Char) := none
  attachmentUrl : Option (List Char) := none
  priority : Option (List Char) := none
  status : Option (List Char) := none
  dateReference : Option (List Char) := none
  count : Option Nat := none
  fieldNames : Option (List (List Char)) := none
deriving DecidableEq, Repr

/-- `Object.keys(entities).length`: the extractor and the relative-value step
assign a key exactly when they found a value, so the key count is the number of
filled slots. -/
def entityCount (e : ExtractedEntities) : Nat :=
  (if e.tableName.isSome then 1 else 0) + (if e.recordId.isSome then 1 else 0) +
  (if e.fieldName.isSome then 1 else 0) + (if e.baseId.isSome then 1 else 0) +
  (if e.webhookUrl.isSome then 1 else 0) + (if e.webhookId.isSome then 1 else 0) +
  (if e.attachmentUrl.isSome then 1 else 0) + (if e.priority.isSome then 1 else 0) +
  (if e.status.isSome then 1 else 0) + (if e.dateReference.isSome then 1 else 0) +
  (if e.count.isSome then 1 else 0) + (if e.fieldNames.isSome then 1 else 0)

inductive ClarificationType where
  | missing_table | missing_field | missing_value | ambiguous_reference
  | permission_issue
deriving DecidableEq, Repr

structure Clarification where
  question : String
  type : ClarificationType
  required : Bool
deriving DecidableEq, Repr

/-! ### IntentMapper (`intent-mapper.ts`)

`intentPatterns` transliterates `initializePatterns` in `Map` insertion order;
each inner list transliterates one `/…/gi` regex literal. -/

def patternsLIST_BASES : List (List RElem) :=
  [ [W "listar", S, RElem.grp true [strI "todas" ++ [wsp] ++ strI "mis" ++ [wsp]],
     W "bases", S, W "airtable", S, W "accesibles"],
    [W "mostrarme", S, W "todas", S, W "mis", S, W "bases"],
    [W "qué", S, W "bases", S, W "tengo", S, W "accesibles"],
    [W "listar", S, W "bases"] ]

def patternsLIST_RECORDS : List (List RElem) :=
  [ [W "mostrarme", S, W "todos", S, W "los", S, W "registros", S,
     RElem.grp false [strI "en", strI "en" ++ [wsp] ++ strI "la"], S,
     W "tabla", S, WPLUS],
    [W "listar", S, W "registros", S, RElem.grp false [strI "de", strI "en"], S, WPLUS],
    [W "ver", S, W "registros", S, W "de", S, WPLUS],
    [W "obtener", S, W "registros", S, W "de", S, WPLUS] ]

def patternsCREATE_RECORD : List (List RElem) :=
  [ [W "crear", S, RElem.grp true [strI "una" ++ [wsp]], W "nueva", S, W "tarea"],
    [W "crear", S, W "registro", S, W "nuevo"],
    [W "agregar", S, W "registro"],
    [W "insertar", S, W "registro"],
    [W "añadir", S, W "nuevo", S, W "registro"] ]

def patternsUPDATE_RECORD : List (List RElem) :=
  [ [W "actualizar", S, RElem.grp true [strI "el" ++ [wsp]], W "estado", S,
     W "de", S, RElem.grp true [strI "la" ++ [wsp]], W "tarea"],
    [W "cambiar", S, W "estado", S, W "de"],
    [W "modificar", S, W "registro"],
    [W "editar", S, W "registro"],
    [W "actualizar", S, W "registro"] ]

def patternsDELETE_RECORD : List (List RElem) :=
  [ [W "eliminar", S,
     RElem.grp true [strI "todos" ++ [wsp] ++ strI "los" ++ [wsp]],
     W "registros", S, W "donde", S, W "el", S, W "estado", S, W "sea"],
    [W "borrar", S, W "registros", S, W "con", S, W "estado"],
    [W "suprimir", S, W "registros"],
    [W "eliminar", S, W "registros"] ]

def patternsSEARCH_RECORDS : List (List RElem) :=
  [ [W "buscar", S, W "registros", S, W "donde", S, WPLUS, S, W "sea", S,
     W "igual", S, W "a"],
    [W "filtrar", S, W "registros", S, W "por"],
    [W "encontrar", S, W "registros", S, W "con"],
    [W "buscar", S, W "registros", S, W "que"] ]

def patternsLIST_TABLES : List (List RElem) :=
  [ [W "qué", S, W "tablas", S, W "hay", S, W "en", S, W "mi", S, W "base"],
    [W "mostrar", S, W "tablas", S, W "de", S, W "la", S, W "base"],
    [W "listar", S, W "tablas"],
    [W "qué", S, W "tablas", S, W "tengo"] ]

def patternsCREATE_WEBHOOK : List (List RElem) :=
  [ [W "crear", S, W "un", S, W "webhook", S, W "para", S, W "mi", S, W "tabla"],
    [W "crear", S, W "webhook"],
    [W "configurar", S, W "webhook"],
    [W "establecer", S, W "webhook"] ]

def patternsLIST_WEBHOOKS : List (List RElem) :=
  [ [W "listar", S, W "todos", S, W "los", S, W "webhooks", S, W "activos"],
    [W "mostrar", S, W "webhooks"],
    [W "ver", S, W "webhooks"],
    [W "qué", S, W "webhooks", S, W "tengo"] ]

def patternsDELETE_WEBHOOK : List (List RElem) :=
  [ [W "eliminar", S, W "webhook", S, WPLUS],
    [W "borrar", S, W "webhook"],
    [W "remover", S, W "webhook"] ]

def patternsGET_BASE_SCHEMA : List (List RElem) :=
  [ [W "mostrarme", S, W "el", S, W "esquema", S, W "completo", S, W "para", S,
     RElem.grp false [strI "esta", strI "la"], S, W "base"],
    [W "obtener", S, W "esquema", S, W "de", S, W "base"],
    [W "describir", S, W "base"] ]

def patternsDESCRIBE_TABLE : List (List RElem) :=
  [ [W "describir", S, W "la", S, W "tabla", S, WPLUS, S, W "con", S, W "todos",
     S, W "los", S, W "detalles", S, W "de", S, W "campo"],
    [W "mostrar", S, W "estructura", S, W "de", S, W "tabla"],
    [W "ver", S, W "campos", S, W "de", S, W "tabla"] ]

def patternsCREATE_TABLE : List (List RElem) :=
  [ [W "crear", S, W "una", S, W "nueva", S, W "tabla", S, W "llamada", S, WPLUS],
    [W "crear", S, W "tabla", S, W "nueva"],
    [W "añadir", S, W "tabla"] ]

def patternsCREATE_FIELD : List (List RElem) :=
  [ [W "agregar", S, W "un", S, W "campo", S, W "de", S, WPLUS, S, W "a", S,
     W "la", S, W "tabla"],
    [W "añadir", S, W "campo"],
    [W "crear", S, W "campo"] ]

def patternsLIST_FIELD_TYPES : List (List RElem) :=
  [ [W "qué", S, W "tipos", S, W "de", S, W "campos", S, W "están", S,
     W "disponibles", S, W "en", S, W "airtable"],
    [W "tipos", S, W "de", S, W "campos", S, W "disponibles"],
    [W "campos", S, W "disponibles"] ]

def patternsBATCH_CREATE_RECORDS : List (List RElem) :=
  [ [W "crear", S, DPLUS, S, W "registros", S, W "nuevos", S, W "a", S, W "la",
     S, W "vez"],
    [W "crear", S, W "múltiples", S, W "registros"],
    [W "añadir", S, W "varios", S, W "registros"] ]

def patternsBATCH_UPDATE_RECORDS : List (List RElem) :=
  [ [W "actualizar", S, W "múltiples", S, W "registros"],
    [W "modificar", S, W "varios", S, W "registros"],
    [W "cambiar", S, W "varios", S, W "registros"] ]

def patternsBATCH_DELETE_RECORDS : List (List RElem) :=
  [ [W "eliminar", S, W "estos", S, DPLUS, S, W "registros", S, W "en", S,
     W "una", S, W "operación"],
    [W "borrar", S, W "múltiples", S, W "registros"],
    [W "eliminar", S, W "varios", S, W "registros"] ]

def patternsUPLOAD_ATTACHMENT : List (List RElem) :=
  [ [W "adjuntar", S, W "esta", S, W "url", S, W "de", S, W "imagen"],
    [W "subir", S, W "archivo"],
    [W "adjuntar", S, W "archivo"],
    [W "añadir", S, W "adjunto"] ]

def patternsLIST_COLLABORATORS : List (List RElem) :=
  [ [W "quiénes", S, W "son", S, W "los", S, W "colaboradores", S, W "en", S,
     W "esta", S, W "base"],
    [W "mostrar", S, W "colaboradores"],
    [W "ver", S, W "colaboradores"] ]

def patternsLIST_SHARES : List (List RElem) :=
  [ [W "mostrarme", S, W "todas", S, W "las", S, W "vistas", S, W "compartidas",
     S, W "en", S, W "esta", S, W "base"],
    [W "ver", S, W "vistas", S, W "compartidas"],
    [W "mostrar", S, W "compartidos"] ]

def patternsANALYZE_DATA : List (List RElem) :=
  [ [W "analizar", S, W "datos", S, W "de"],
    [W "analizar", S, W "tabla"],
    [W "estudiar", S, W "datos"] ]

/-- The pattern table in `Map` insertion order, with each compiled regex paired
with its persistent `lastIndex` (initially 0). -/
def initMapper : List (IntentType × List (List RElem × Nat)) :=
  [ (.LIST_BASES, patternsLIST_BASES.map (·, 0)),
    (.LIST_RECORDS, patternsLIST_RECORDS.map (·, 0)),
    (.CREATE_RECORD, patternsCREATE_RECORD.map (·, 0)),
    (.UPDATE_RECORD, patternsUPDATE_RECORD.map (·, 0)),
    (.DELETE_RECORD, patternsDELETE_RECORD.map (·, 0)),
    (.SEARCH_RECORDS, patternsSEARCH_RECORDS.map (·, 0)),
    (.LIST_TABLES, patternsLIST_TABLES.map (·, 0)),
    (.CREATE_WEBHOOK, patternsCREATE_WEBHOOK.map (·, 0)),
    (.LIST_WEBHOOKS, patternsLIST_WEBHOOKS.map (·, 0)),
    (.DELETE_WEBHOOK, patternsDELETE_WEBHOOK.map (·, 0)),
    (.GET_BASE_SCHEMA, patternsGET_BASE_SCHEMA.map (·, 0)),
    (.DESCRIBE_TABLE, patternsDESCRIBE_TABLE.map (·, 0)),
    (.CREATE_TABLE, patternsCREATE_TABLE.map (·, 0)),
    (.CREATE_FIELD, patternsCREATE_FIELD.map (·, 0)),
    (.LIST_FIELD_TYPES, patternsLIST_FIELD_TYPES.map (·, 0)),
    (.BATCH_CREATE_RECORDS, patternsBATCH_CREATE_RECORDS.map (·, 0)),
    (.BATCH_UPDATE_RECORDS, patternsBATCH_UPDATE_RECORDS.map (·, 0)),
    (.BATCH_DELETE_RECORDS, patternsBATCH_DELETE_RECORDS.map (·, 0)),
    (.UPLOAD_ATTACHMENT, patternsUPLOAD_ATTACHMENT.map (·, 0)),
    (.LIST_COLLABORATORS, patternsLIST_COLLABORATORS.map (·, 0)),
    (.LIST_SHARES, patternsLIST_SHARES.map (·, 0)),
    (.ANALYZE_DATA, patternsANALYZE_DATA.map (·, 0)) ]

/-- The mapper's persistent state: the table with each pattern's `lastIndex`. -/
abbrev MapperState := List (IntentType × List (List RElem × Nat))

/-- Run one intent's pattern list: first `test` that succeeds wins; every
executed `test` updates its pattern's `lastIndex`; patterns after a success are
not executed (and keep their state). -/
def runPats (s : List Char) : List (List RElem × Nat) → Bool × List (List RElem × Nat)
  | [] => (false, [])
  | (p, li) :: rest =>
      let r := testG p s li
      if r.1 then (true, (p, r.2) :: rest)
      else
        let rec' := runPats s rest
        (rec'.1, (p, r.2) :: rec'.2)

/-- Scan the pattern table in order; the first matching pattern's intent wins.
Entries after a match are left untouched. -/
def runTable (s : List Char) : MapperState → Option IntentType × MapperState
  | [] => (none, [])
  | (it, ps) :: tl =>
      let r := runPats s ps
      if r.1 then (some it, (it, r.2) :: tl)
      else
        let r2 := runTable s tl
        (r2.1, (it, r.2) :: r2.2)

/-- The analyzer's output record (`semantic-analyzer.ts`, local interface). -/
structure SemanticAnalysis where
  confidence : ℚ
  entities : List (List Char)
  actions : List (List Char)
  context : List (List Char)
  sentiment : List Char
  urgency : List Char
deriving DecidableEq, Repr

/-- `IntentMapper.mapIntent`: direct pattern match (stateful `/g` regexes),
then contextual fallback, then keyword-class fallback, else `unknown`.
The `semanticAnalysis` argument is accepted but never read, as in the source. -/
def mapIntent (st : MapperState) (query : List Char)
    (_semanticAnalysis : SemanticAnalysis) (context : ConversationContext) :
    IntentType × MapperState :=
  let r := runTable query st
  match r.1 with
  | some it => (it, r.2)
  | none =>
    let st' := r.2
    if includes query "esa tabla" && truthyStr context.currentTable &&
        (includes query "mostrar" || includes query "ver" || includes query "obtener") then
      (.LIST_RECORDS, st')
    else if includes query "esa tabla" && truthyStr context.currentTable &&
        (includes query "crear" || includes query "añadir") then
      (.CREATE_RECORD, st')
    else if includes query "ese registro" && truthyStr context.currentRecordId &&
        (includes query "actualizar" || includes query "cambiar" || includes query "modificar") then
      (.UPDATE_RECORD, st')
    else if includes query "ese registro" && truthyStr context.currentRecordId &&
        (includes query "eliminar" || includes query "borrar") then
      (.DELETE_RECORD, st')
    else if includes query "crear" || includes query "nuevo" || includes query "añadir" ||
        includes query "insertar" || includes query "agregar" then
      if includes query "tabla" then (.CREATE_TABLE, st')
      else if includes query "campo" then (.CREATE_FIELD, st')
      else (.CREATE_RECORD, st')
    else if includes query "mostrar" || includes query "listar" || includes query "ver" ||
        includes query "obtener" then
      if includes query "base" then (.LIST_BASES, st')
      else if includes query "tabla" || includes query "tablas" then (.LIST_TABLES, st')
      else if includes query "webhook" then (.LIST_WEBHOOKS, st')
      else (.LIST_RECORDS, st')
    else if includes query "actualizar" || includes query "modificar" ||
        includes query "cambiar" || includes query "editar" then
      (.UPDATE_RECORD, st')
    else if includes query "eliminar" || includes query "borrar" ||
        includes query "suprimir" || includes query "remover" then
      if includes query "webhook" then (.DELETE_WEBHOOK, st')
      else (.DELETE_RECORD, st')
    else
      (.UNKNOWN, st')

/-- `IntentMapper.requiresTable`. -/
def requiresTable (intent : IntentType) : Bool :=
  [IntentType.LIST_RECORDS, .CREATE_RECORD, .UPDATE_RECORD, .DELETE_RECORD,
   .SEARCH_RECORDS, .DESCRIBE_TABLE, .CREATE_FIELD, .CREATE_WEBHOOK,
   .BATCH_CREATE_RECORDS, .BATCH_UPDATE_RECORDS, .BATCH_DELETE_RECORDS,
   .UPLOAD_ATTACHMENT].contains intent

/-- `IntentMapper.requiresRecordId`. -/
def requiresRecordId (intent : IntentType) : Bool :=
  [IntentType.UPDATE_RECORD, .DELETE_RECORD, .GET_RECORD,
   .UPLOAD_ATTACHMENT].contains intent

/-! ### Normalizer (`NaturalLanguageProcessor.normalizeQuery`) -/

/-- `String.prototype.trim` (over the whitespace alphabet of the inputs). -/
def trimList (s : List Char) : List Char :=
  ((s.dropWhile isWsChar).reverse.dropWhile isWsChar).reverse

mutual
/-- `replace(/\s+/g, ' ')`: each maximal whitespace run becomes one space. -/
def collapseWs : List Char → List Char
  | [] => []
  | c :: cs => if isWsChar c then ' ' :: collapseSkip cs else c :: collapseWs cs
def collapseSkip : List Char → List Char
  | [] => []
  | c :: cs => if isWsChar c then collapseSkip cs else c :: collapseWs cs
end

/-- `replace(/[^\w\s\.\-\_\@\#]/g, '')`. -/
def stripSymbols (s : List Char) : List Char :=
  s.filter (fun c =>
    isWordChar c || isWsChar c || c = '.' || c = '-' || c = '_' || c = '@' || c = '#')

mutual
/-- Apply `f` to every maximal run of `\w` characters, passing other characters
through.  Each synonym replacement in the source is
`replace(/\b(w₁|w₂|…)\b/g, canonical)` where every alternative is a standalone
`\w` word; such a replacement rewrites exactly the maximal `\w` runs equal to
one of the alternatives, which is what this traversal implements. -/
def mapRunsIn (f : List Char → List Char) (acc : List Char) :
    List Char → List Char
  | [] => f acc.reverse
  | c :: cs =>
      if isWordChar c then mapRunsIn f (c :: acc) cs
      else f acc.reverse ++ c :: mapRunsOut f cs
def mapRunsOut (f : List Char → List Char) : List Char → List Char
  | [] => []
  | c :: cs =>
      if isWordChar c then mapRunsIn f [c] cs else c :: mapRunsOut f cs
end

def memberOf (ws : List String) (t : List Char) : Bool :=
  (ws.map String.toList).contains t

/-- The five sequential synonym replacements, applied to one word token.
Each replacement's output is a canonical word that later groups do not
rewrite, so sequential per-token application equals the source's sequential
whole-string replacements. -/
def synToken (t : List Char) : List Char :=
  let t := if memberOf ["crea", "crear", "nuevo", "nueva"] t then "crear".toList else t
  let t := if memberOf ["mostrar", "mostrarme", "muestra", "ver", "listar"] t then "listar".toList else t
  let t := if memberOf ["actualizar", "modificar", "cambiar", "editar"] t then "actualizar".toList else t
  let t := if memberOf ["eliminar", "borrar", "suprimir"] t then "eliminar".toList else t
  let t := if memberOf ["buscar", "encontrar", "filtrar"] t then "buscar".toList else t
  t

/-- `NaturalLanguageProcessor.normalizeQuery`: lowercase, trim, collapse
whitespace, strip disallowed symbols, canonicalize synonyms — in source order. -/
def normalizeQuery (q : List Char) : List Char :=
  mapRunsOut synToken (stripSymbols (collapseWs (trimList (q.map toLowerJS))))

/-! ### Capture-group matching (for the entity-extraction regexes) -/

/-- A regex with exactly one capture group: the elements before the group,
the group body, and the elements after it. -/
structure CapPat where
  pre : List RElem
  cap : List RElem
  post : List RElem

/-- Positions of a successful match attempt at start `j`:
`(capStart, capEnd, fullEnd)`, chosen in JS backtracking preference order. -/
def capAt (s : List Char) (cp : CapPat) (j : Nat) : Option (Nat × Nat × Nat) :=
  (matchSeq s cp.pre j).findSome? (fun p1 =>
    (matchSeq s cp.cap p1).findSome? (fun p2 =>
      (matchSeq s cp.post p2).head?.map (fun p3 => (p1, p2, p3))))

def capSearchAux (s : List Char) (cp : CapPat) :
    Nat → Nat → Option (Nat × Nat × Nat × Nat)
  | 0, _ => none
  | fuel + 1, j =>
      match capAt s cp j with
      | some (p1, p2, p3) => some (j, p1, p2, p3)
      | none => capSearchAux s cp fuel (j + 1)

/-- Leftmost match of a one-capture regex at or after `li`:
`(start, capStart, capEnd, fullEnd)`. -/
def capSearchFrom (s : List Char) (cp : CapPat) (li : Nat) :
    Option (Nat × Nat × Nat × Nat) :=
  if li > s.length then none else capSearchAux s cp (s.length + 1 - li) li

/-- `query.match(re)` for a one-capture regex without `/g`. -/
def capSearch (s : List Char) (cp : CapPat) : Option (Nat × Nat × Nat × Nat) :=
  capSearchFrom s cp 0

/-- `s.slice(a, b)` / the text between two positions. -/
def sliceL (s : List Char) (a b : Nat) : List Char := (s.drop a).take (b - a)

/-- `String.prototype.matchAll` over a `/g` one-capture regex: every capture,
advancing `lastIndex` past each full match. -/
def gCapAll (cp : CapPat) (s : List Char) : List (List Char) :=
  go (s.length + 1) 0
where
  go : Nat → Nat → List (List Char)
    | 0, _ => []
    | fuel + 1, i =>
        match capSearchFrom s cp i with
        | none => []
        | some (st, c1, c2, en) =>
            sliceL s c1 c2 :: go fuel (if en > st then en else st + 1)

/-! ### Entity-extraction regexes (`NaturalLanguageProcessor.extractEntities`),
case-sensitive (no `/i` flag on any of them). -/

/-- `[a-zA-ZáéíóúñÑ_]` -/
def tblLead (c : Char) : Bool := isAsciiAlpha c || isAccented c || c = '_'

/-- `[a-zA-Z0-9áéíóúñÑ_\s]` -/
def tblBody (c : Char) : Bool :=
  isAsciiAlpha c || isDigitChar c || isAccented c || c = '_' || isWsChar c

/-- `[a-zA-Z0-9]` -/
def isAlnum (c : Char) : Bool := isAsciiAlpha c || isDigitChar c

/-- `[a-zA-ZáéíóúñÑ\s]` -/
def statusCls (c : Char) : Bool := isAsciiAlpha c || isAccented c || isWsChar c

/-- `(?:\s|$|\.|,)` -/
def sepGroup : RElem :=
  RElem.grp false [[Atom.cls isWsChar], [Atom.eol], [chr '.'], [chr ',']]

/-- `/(?:en|para|tabla)\s+([a-zA-ZáéíóúñÑ_][a-zA-Z0-9áéíóúñÑ_\s]*?)(?:\s|$|\.|,)/` -/
def tableNamePat : CapPat :=
  { pre := [RElem.grp false [str "en", str "para", str "tabla"], S],
    cap := [seqA [Atom.cls tblLead, Atom.star true false tblBody]],
    post := [sepGroup] }

/-- `/(?:id|registro|record)\s*[:#]?\s*([a-zA-Z0-9]+)/` -/
def recordIdPat : CapPat :=
  { pre := [RElem.grp false [str "id", str "registro", str "record"],
            seqA [wss],
            RElem.grp true [[Atom.cls (fun c => c = ':' || c = '#')]],
            seqA [wss]],
    cap := [seqA [Atom.cls isAlnum, Atom.star false false isAlnum]],
    post := [] }

/-- `/prioridad\s+(alta|media|baja)/` -/
def priorityPat : CapPat :=
  { pre := [seqA (str "prioridad"), S],
    cap := [RElem.grp false [str "alta", str "media", str "baja"]],
    post := [] }

/-- `/(?:estado|status)\s*(?:sea\s+|=|igual\s+a\s+)?([a-zA-ZáéíóúñÑ\s]+?)(?:\s|$|\.|,)/` -/
def statusPat : CapPat :=
  { pre := [RElem.grp false [str "estado", str "status"],
            seqA [wss],
            RElem.grp true [str "sea" ++ [wsp], [chr '='],
                            str "igual" ++ [wsp] ++ str "a" ++ [wsp]]],
    cap := [seqA [Atom.star true true statusCls]],
    post := [sepGroup] }

/-- `/https?:\/\/[^\s]+/` — matched as one "capture" covering the whole match,
since the source uses `match(...)[0]`. -/
def urlPat : CapPat :=
  { pre := [],
    cap := [seqA (str "http"), RElem.grp true [[chr 's']], seqA (str "://"),
            seqA [Atom.star false true (fun c => !isWsChar c)]],
    post := [] }

/-- `/(?:webhook\s+)?([a-zA-Z0-9]+)/` -/
def webhookIdPat : CapPat :=
  { pre := [RElem.grp true [str "webhook" ++ [wsp]]],
    cap := [seqA [Atom.cls isAlnum, Atom.star false false isAlnum]],
    post := [] }

/-- `/(\d+)\s+(?:registros?|registro|records?|record)/`; the trailing-`?`
alternatives are expanded in preference order (`registros?` tries `registros`
then `registro`, etc.). -/
def countPat : CapPat :=
  { pre := [],
    cap := [seqA [Atom.cls isDigitChar, Atom.star false false isDigitChar]],
    post := [S, RElem.grp false [str "registros", str "registro",
                                 str "registro", str "records", str "record"]] }

/-- `/campo\s+([a-zA-ZáéíóúñÑ_][a-zA-Z0-9áéíóúñÑ_\s]*?)/g` -/
def campoPat : CapPat :=
  { pre := [seqA (str "campo"), S],
    cap := [seqA [Atom.cls tblLead, Atom.star true false tblBody]],
    post := [] }

/-- `parseInt(digits, 10)` on a `\d+` capture. -/
def digitsToNat (s : List Char) : Nat :=
  s.foldl (fun acc c => acc * 10 + (c.toNat - 48)) 0

/-! ### Entity extractor (`NaturalLanguageProcessor.extractEntities`) -/

/-- Table-name block: regex capture, else fall back to `context.currentTable`
(truthiness check, as in `else if (context.currentTable)`). -/
def extractTableNameStep (e : ExtractedEntities) (query : List Char)
    (context : ConversationContext) : ExtractedEntities :=
  match capSearch query tableNamePat with
  | some (_, c1, c2, _) => { e with tableName := some (trimList (sliceL query c1 c2)) }
  | none =>
      if truthyStr context.currentTable then { e with tableName := context.currentTable }
      else e

def extractRecordIdStep (e : ExtractedEntities) (query : List Char) :
    ExtractedEntities :=
  match capSearch query recordIdPat with
  | some (_, c1, c2, _) => { e with recordId := some (sliceL query c1 c2) }
  | none => e

/-- Priority block: the capture is lowercased, then mapped to its canonical
capitalized label by the source's nested ternary. -/
def extractPriorityStep (e : ExtractedEntities) (query : List Char) :
    ExtractedEntities :=
  match capSearch query priorityPat with
  | some (_, c1, c2, _) =>
      let p := (sliceL query c1 c2).map toLowerJS
      { e with priority := some (if p = "alta".toList then "Alta".toList
          else if p = "media".toList then "Media".toList else "Baja".toList) }
  | none => e

def extractStatusStep (e : ExtractedEntities) (query : List Char) :
    ExtractedEntities :=
  match capSearch query statusPat with
  | some (_, c1, c2, _) => { e with status := some (trimList (sliceL query c1 c2)) }
  | none => e

/-- Webhook-URL block: the match is attempted unconditionally, the assignment
is gated on the intent. -/
def extractWebhookUrlStep (e : ExtractedEntities) (query : List Char)
    (intent : IntentType) : ExtractedEntities :=
  match capSearch query urlPat with
  | some (_, c1, c2, _) =>
      if intent = .CREATE_WEBHOOK then { e with webhookUrl := some (sliceL query c1 c2) }
      else e
  | none => e

def extractWebhookIdStep (e : ExtractedEntities) (query : List Char)
    (intent : IntentType) : ExtractedEntities :=
  match capSearch query webhookIdPat with
  | some (_, c1, c2, _) =>
      if intent = .DELETE_WEBHOOK then { e with webhookId := some (sliceL query c1 c2) }
      else e
  | none => e

def extractAttachmentUrlStep (e : ExtractedEntities) (query : List Char)
    (intent : IntentType) : ExtractedEntities :=
  match capSearch query urlPat with
  | some (_, c1, c2, _) =>
      if intent = .UPLOAD_ATTACHMENT then { e with attachmentUrl := some (sliceL query c1 c2) }
      else e
  | none => e

def extractCountStep (e : ExtractedEntities) (query : List Char) :
    ExtractedEntities :=
  match capSearch query countPat with
  | some (_, c1, c2, _) => { e with count := some (digitsToNat (sliceL query c1 c2)) }
  | none => e

/-- Field-names block: `matchAll` over the `/g` regex, each capture trimmed. -/
def extractFieldNamesStep (e : ExtractedEntities) (query : List Char) :
    ExtractedEntities :=
  let fields := (gCapAll campoPat query).map trimList
  if fields.length > 0 then { e with fieldNames := some fields } else e

/-- Contextual-reference block (`esa tabla` / `ese registro`). -/
def contextualRefsStep (e : ExtractedEntities) (query : List Char)
    (context : ConversationContext) : ExtractedEntities :=
  let e :=
    if includes query "esa tabla" && truthyStr context.currentTable then
      { e with tableName := context.currentTable }
    else e
  let e :=
    if includes query "ese registro" && truthyStr context.currentRecordId then
      { e with recordId := context.currentRecordId }
    else e
  e

/-- `NaturalLanguageProcessor.extractEntities`: the slot blocks in source
order, starting from the empty record. -/
def extractEntities (query : List Char) (intent : IntentType)
    (context : ConversationContext) : ExtractedEntities :=
  contextualRefsStep
    (extractFieldNamesStep
      (extractCountStep
        (extractAttachmentUrlStep
          (extractWebhookIdStep
            (extractWebhookUrlStep
              (extractStatusStep
                (extractPriorityStep
                  (extractRecordIdStep
                    (extractTableNameStep {} query context) query) query) query)
              query intent) query intent) query intent) query) query) query context

/-- The three date strings `new Date()` arithmetic would produce at the moment
of the call (`toISOString().split('T')[0]` of today±1); the processor is
parameterized by them since the embedding has no clock. -/
structure RelDates where
  tomorrow : List Char
  today : List Char
  yesterday : List Char
deriving DecidableEq, Repr

/-- `NaturalLanguageProcessor.processRelativeValues` (checks run on the
original, un-normalized query). -/
def processRelativeValues (entities : ExtractedEntities)
    (originalQuery : List Char) (dates : RelDates) : ExtractedEntities :=
  if includes originalQuery "mañana" then
    { entities with dateReference := some dates.tomorrow }
  else if includes originalQuery "hoy" then
    { entities with dateReference := some dates.today }
  else if includes originalQuery "ayer" then
    { entities with dateReference := some dates.yesterday }
  else entities

/-! ### Parameter assembly (`NaturalLanguageProcessor.buildQueryParameters`) -/

/-- The webhook configuration object; its `specification` sub-object is a
constant never read by the validator, so only `notificationUrl` is modelled. -/
structure WebhookCfg where
  notificationUrl : List Char
deriving DecidableEq, Repr

structure QueryParameters where
  table : Option (List Char) := none
  baseId : Option (List Char) := none
  recordId : Option (List Char) := none
  /-- `fields` object as an insertion-ordered key/value list -/
  fields : Option (List (List Char × List Char)) := none
  filterByFormula : Option (List Char) := none
  maxRecords : Option Nat := none
  webhookConfig : Option WebhookCfg := none
  /-- `attachmentData` object, its only key being `url` -/
  attachmentData : Option (List Char) := none
deriving DecidableEq, Repr

/-- `NaturalLanguageProcessor.buildQueryParameters`.  `entities.maxRecords`
does not exist on `ExtractedEntities`, so in `entities.maxRecords ||
entities.count` only the count contributes. -/
def buildQueryParameters (intent : IntentType) (entities : ExtractedEntities)
    (_context : ConversationContext) : QueryParameters :=
  let p : QueryParameters := {}
  let p := if truthyStr entities.tableName then { p with table := entities.tableName } else p
  let p := if truthyStr entities.baseId then { p with baseId := entities.baseId } else p
  let p := if truthyStr entities.recordId then { p with recordId := entities.recordId } else p
  match intent with
  | .LIST_RECORDS | .SEARCH_RECORDS =>
      let p :=
        if truthyStr entities.status then
          { p with filterByFormula := some ("\x7bStatus\x7d = '".toList ++
              (entities.status.getD []) ++ "'".toList) }
        else p
      if truthyNum entities.count then
        { p with maxRecords := some (min (entities.count.getD 0) 100) }
      else p
  | .CREATE_RECORD =>
      let fs : List (List Char × List Char) := []
      let fs := if truthyStr entities.priority then
          fs ++ [("Priority".toList, entities.priority.getD [])] else fs
      let fs := if truthyStr entities.status then
          fs ++ [("Status".toList, entities.status.getD [])] else fs
      let fs := if truthyStr entities.dateReference then
          fs ++ [("Due Date".toList, entities.dateReference.getD [])] else fs
      { p with fields := some fs }
  | .UPDATE_RECORD =>
      let p := if truthyStr entities.status then
          { p with fields := some [("Status".toList, entities.status.getD [])] }
        else p
      if truthyStr entities.priority then
        { p with fields := some ((p.fields.getD []) ++
            [("Priority".toList, entities.priority.getD [])]) }
      else p
  | .CREATE_WEBHOOK =>
      if truthyStr entities.webhookUrl then
        { p with webhookConfig := some ⟨entities.webhookUrl.getD []⟩ }
      else p
  | .BATCH_CREATE_RECORDS =>
      if truthyNum entities.count then
        { p with maxRecords := some (min (entities.count.getD 0) 10) }
      else p
  | .UPLOAD_ATTACHMENT =>
      if truthyStr entities.attachmentUrl then
        { p with attachmentData := entities.attachmentUrl }
      else p
  | _ => p

/-! ### Semantic analyzer (`semantic-analyzer.ts`) -/

def actionWords : List String :=
  ["crear", "mostrar", "listar", "ver", "obtener", "buscar", "filtrar",
   "actualizar", "modificar", "cambiar", "editar", "eliminar", "borrar",
   "agregar", "añadir", "insertar", "subir", "adjuntar"]

def contextWords : List String :=
  ["tabla", "registro", "base", "campo", "webhook", "archivo", "imagen",
   "proyecto", "tarea", "estado", "prioridad", "fecha", "vencimiento"]

mutual
/-- `split(/\s+/)`, with JS's empty leading/trailing fields when the string
starts or ends with a separator. -/
def splitTok (acc : List Char) : List Char → List (List Char)
  | [] => [acc.reverse]
  | c :: cs =>
      if isWsChar c then acc.reverse :: splitSkip cs else splitTok (c :: acc) cs
def splitSkip : List Char → List (List Char)
  | [] => [[]]
  | c :: cs => if isWsChar c then splitSkip cs else splitTok [c] cs
end

def jsSplitWs (s : List Char) : List (List Char) := splitTok [] s

/-- `[a-záéíóúñÑ\s]` (body class of the proper-noun entity pattern). -/
def entBody1 (c : Char) : Bool := isAsciiLower c || isAccented c || isWsChar c

/-- `[a-záéíóúñÑ_]` (lead class of the identifier entity pattern). -/
def entLead3 (c : Char) : Bool := isAsciiLower c || isAccented c || c = '_'

/-- `[a-zA-Z0-9áéíóúñÑ_]` (body class of the identifier entity pattern). -/
def entBody3 (c : Char) : Bool := isWordChar c || isAccented c

/-- `/\b[A-Z][a-záéíóúñÑ\s]+\b/g` -/
def entPat1 : List RElem :=
  [seqA [Atom.bdry, Atom.cls isAsciiUpper, Atom.star false true entBody1, Atom.bdry]]

/-- `/\b[A-Z]{2,}\b/g` -/
def entPat2 : List RElem :=
  [seqA [Atom.bdry, Atom.cls isAsciiUpper, Atom.cls isAsciiUpper,
         Atom.star false false isAsciiUpper, Atom.bdry]]

/-- `/\b[a-záéíóúñÑ_][a-zA-Z0-9áéíóúñÑ_]*\b/g` -/
def entPat3 : List RElem :=
  [seqA [Atom.bdry, Atom.cls entLead3, Atom.star false false entBody3, Atom.bdry]]

/-- `query.match(/…/g)`: all matched substrings, in order. -/
def gMatchAll (pat : List RElem) (s : List Char) : List (List Char) :=
  go (s.length + 1) 0
where
  go : Nat → Nat → List (List Char)
    | 0, _ => []
    | fuel + 1, i =>
        match searchFromIdx s pat i with
        | none => []
        | some (st, en) => sliceL s st en :: go fuel (if en > st then en else st + 1)

def commonWords : List String :=
  ["una", "un", "el", "la", "de", "en", "con", "para", "por", "sobre",
   "esta", "este", "esa", "ese", "todas", "todos", "todos", "que", "donde"]

def isCommonWord (w : List Char) : Bool := memberOf commonWords w

/-- de-duplicate preserving first occurrences (`[...new Set(entities)]`). -/
def dedupAux (seen : List (List Char)) : List (List Char) → List (List Char)
  | [] => []
  | x :: xs =>
      if seen.contains x then dedupAux seen xs else x :: dedupAux (x :: seen) xs

/-- `SemanticAnalyzer.extractNamedEntities`. -/
def extractNamedEntities (query : List Char) : List (List Char) :=
  let collect := fun (pat : List RElem) =>
    (gMatchAll pat query).filter
      (fun m => m.length > 2 && !isCommonWord (m.map toLowerJS))
  dedupAux [] (collect entPat1 ++ collect entPat2 ++ collect entPat3)

def positiveWords : List String := ["bueno", "excelente", "perfecto", "correcto", "bien"]

def negativeWords : List String := ["malo", "incorrecto", "error", "problema", "fallo"]

/-- `SemanticAnalyzer.analyzeSentiment`. -/
def analyzeSentiment (words : List (List Char)) : List Char :=
  let pos := (words.filter (memberOf positiveWords)).length
  let neg := (words.filter (memberOf negativeWords)).length
  if pos > neg then "positive".toList
  else if neg > pos then "negative".toList
  else "neutral".toList

def urgentWords : List String := ["urgente", "rápido", "inmediato", "ahora", "ya"]

def mediumWords : List String := ["pronto", "rápido", "próximo"]

/-- `SemanticAnalyzer.analyzeUrgency` (the `entities` argument is unused in the
source as well). -/
def analyzeUrgency (words : List (List Char)) (_entities : List (List Char)) :
    List Char :=
  if words.any (memberOf urgentWords) then "high".toList
  else if words.any (memberOf mediumWords) then "medium".toList
  else "low".toList

/-- `SemanticAnalyzer.calculateConfidence` (JS number arithmetic as exact
rationals). -/
def semanticConfidence (actions entities ctxWords : List (List Char)) : ℚ :=
  let c : ℚ := 0.3
  let c := c + min ((actions.length : ℚ) * 0.2) 0.4
  let c := c + min ((entities.length : ℚ) * 0.1) 0.3
  let c := c + min ((ctxWords.length : ℚ) * 0.1) 0.2
  min c 1

/-- `SemanticAnalyzer.analyze` (the context argument is unused in the source). -/
def analyze (query : List Char) (_context : ConversationContext) :
    SemanticAnalysis :=
  let words := jsSplitWs (query.map toLowerJS)
  let actions := words.filter (memberOf actionWords)
  let contextEntities := words.filter (memberOf contextWords)
  let entities := extractNamedEntities query
  { confidence := semanticConfidence actions entities contextEntities,
    entities := entities,
    actions := actions,
    context := contextEntities,
    sentiment := analyzeSentiment words,
    urgency := analyzeUrgency words entities }

/-! ### Validation engine (`validation-engine.ts`) -/

/-- A parameter value as `getParameterValue` can observe it. -/
inductive PVal where
  | pStr (s : List Char)
  | pNum (n : Nat)
  | pFields (l : List (List Char × List Char))
  | pWebhook (w : WebhookCfg)
  | pAttach (u : List Char)
deriving DecidableEq, Repr

/-- JS truthiness of a possibly-absent parameter value (objects are always
truthy, `""` and `0` are falsy). -/
def pvalTruthy : Option PVal → Bool
  | none => false
  | some (.pStr s) => s ≠ []
  | some (.pNum n) => n ≠ 0
  | some (.pFields _) => true
  | some (.pWebhook _) => true
  | some (.pAttach _) => true

/-- Direct field access `parameters[paramName]`. -/
def paramField (p : QueryParameters) (name : String) : Option PVal :=
  if name = "table" then p.table.map .pStr
  else if name = "baseId" then p.baseId.map .pStr
  else if name = "recordId" then p.recordId.map .pStr
  else if name = "fields" then p.fields.map .pFields
  else if name = "filterByFormula" then p.filterByFormula.map .pStr
  else if name = "maxRecords" then p.maxRecords.map .pNum
  else if name = "webhookConfig" then p.webhookConfig.map .pWebhook
  else if name = "attachmentData" then p.attachmentData.map .pAttach
  else none

/-- `ValidationEngine.getParameterValue`: the `||` chain
`parameters[n] || fields[n] || webhookConfig[n] || attachmentData[n]`.
A falsy final operand behaves exactly like `none` for the truthiness checks
that consume this value, so the first truthy operand (or `none`) is returned. -/
def getParameterValue (p : QueryParameters) (name : String) : Option PVal :=
  let v1 := paramField p name
  if pvalTruthy v1 then v1
  else
    let v2 := match p.fields with
      | some fs => (fs.lookup name.toList).map PVal.pStr
      | none => none
    if pvalTruthy v2 then v2
    else
      let v3 := match p.webhookConfig with
        | some w => if name = "notificationUrl" then some (.pStr w.notificationUrl) else none
        | none => none
      if pvalTruthy v3 then v3
      else
        match p.attachmentData with
        | some u => if name = "url" then some (.pStr u) else none
        | none => none

inductive VRuleType where
  | required
  | conditional
deriving DecidableEq, Repr

/-- One declarative rule of `initializeValidationRules`.  As in the source,
the predicate of a `required` rule is never invoked (`validate` only tests
truthiness for those), so only `conditional` predicates matter. -/
structure VRule where
  parameter : String
  typ : VRuleType
  check : PVal → Bool
  errorMessage : String

def nonEmptyTrimmed : PVal → Bool
  | .pStr s => trimList s ≠ []
  | _ => false

def nonEmptyFields : PVal → Bool
  | .pFields l => l ≠ []
  | _ => false

def webhookCfgOk : PVal → Bool
  | .pWebhook w => w.notificationUrl ≠ []
  | _ => false

def attachDataOk : PVal → Bool
  | .pAttach u => u ≠ []
  | _ => false

def batchSizeOk : PVal → Bool
  | .pNum n => 0 < n && n ≤ 10
  | _ => false

/-- `initializeValidationRules`: the per-intent rule lists. -/
def validationRules : IntentType → List VRule
  | .LIST_RECORDS =>
      [⟨"table", .required, nonEmptyTrimmed, "El nombre de la tabla es requerido"⟩]
  | .CREATE_RECORD =>
      [⟨"table", .required, nonEmptyTrimmed, "El nombre de la tabla es requerido"⟩,
       ⟨"fields", .required, nonEmptyFields, "Se requiere al menos un campo para crear el registro"⟩]
  | .UPDATE_RECORD =>
      [⟨"table", .required, nonEmptyTrimmed, "El nombre de la tabla es requerido"⟩,
       ⟨"recordId", .required, nonEmptyTrimmed, "El ID del registro es requerido"⟩,
       ⟨"fields", .required, nonEmptyFields, "Se requiere al menos un campo para actualizar"⟩]
  | .DELETE_RECORD =>
      [⟨"table", .required, nonEmptyTrimmed, "El nombre de la tabla es requerido"⟩,
       ⟨"recordId", .required, nonEmptyTrimmed, "El ID del registro es requerido"⟩]
  | .CREATE_WEBHOOK =>
      [⟨"table", .required, nonEmptyTrimmed, "El nombre de la tabla es requerido"⟩,
       ⟨"webhookConfig", .required, webhookCfgOk, "La configuración del webhook es requerida"⟩]
  | .UPLOAD_ATTACHMENT =>
      [⟨"table", .required, nonEmptyTrimmed, "El nombre de la tabla es requerido"⟩,
       ⟨"recordId", .required, nonEmptyTrimmed, "El ID del registro es requerido"⟩,
       ⟨"attachmentData", .required, attachDataOk, "Los datos del adjunto son requeridos"⟩]
  | .BATCH_CREATE_RECORDS =>
      [⟨"table", .required, nonEmptyTrimmed, "El nombre de la tabla es requerido"⟩,
       ⟨"maxRecords", .conditional, batchSizeOk, "El número de registros debe estar entre 1 y 10"⟩]
  | _ => []

inductive VSeverity where
  | error
  | critical
deriving DecidableEq, Repr

structure ValidationError where
  field : String
  message : String
  code : List Char
  severity : VSeverity
deriving DecidableEq, Repr

structure ValidationWarning where
  field : String
  message : String
  code : String
  suggestion : Option String := none
deriving DecidableEq, Repr

structure ValidationResult where
  isValid : Bool
  errors : List ValidationError
  warnings : List ValidationWarning
  suggestions : List (List Char)
deriving DecidableEq, Repr

def toUpperJS (c : Char) : Char :=
  if isAsciiLower c then Char.ofNat (c.toNat - 32) else c

/-- `` `MISSING_${param.toUpperCase()}` `` / `` `INVALID_…` ``. -/
def errCode (kind : String) (param : String) : List Char :=
  kind.toList ++ "_".toList ++ param.toList.map toUpperJS

/-- `/^https?:\/\/[^\s/$.?#].[^\s]*$/i`, anchored at both ends. -/
def urlCheckPat : List RElem :=
  [seqA (strI "http"), RElem.grp true [[chrI 's']], seqA (str "://"),
   seqA [Atom.cls (fun c =>
            !(isWsChar c || c = '/' || c = '$' || c = '.' || c = '?' || c = '#'))],
   seqA [Atom.cls (fun c => c ≠ '\n' && c ≠ '\r')],
   seqA [Atom.star false false (fun c => !isWsChar c), Atom.eol]]

/-- `ValidationEngine.isValidUrl`. -/
def isValidUrl (u : List Char) : Bool := (matchSeq u urlCheckPat 0) ≠ []

/-- `/^[a-zA-ZáéíóúñÑ][a-zA-Z0-9áéíóúñÑ\s_-]*$/.test(table)`. -/
def tableNameOk (t : List Char) : Bool :=
  match t with
  | [] => false
  | c :: cs =>
      (isAsciiAlpha c || isAccented c) &&
      cs.all (fun d => isAsciiAlpha d || isDigitChar d || isAccented d ||
                       isWsChar d || d = '_' || d = '-')

/-- `/^[a-zA-Z0-9]+$/.test(recordId)`. -/
def recordIdOk (r : List Char) : Bool := r ≠ [] && r.all isAlnum

/-- `ValidationEngine.performAdditionalValidations`. -/
def performAdditionalValidations (intent : IntentType) (p : QueryParameters)
    (_context : ConversationContext) : ValidationResult :=
  let errors : List ValidationError := []
  let errors :=
    match p.webhookConfig with
    | some w =>
        if intent = .CREATE_WEBHOOK && w.notificationUrl ≠ [] &&
            !isValidUrl w.notificationUrl then
          errors ++ [⟨"webhookConfig.notificationUrl", "La URL del webhook no es válida",
                      "INVALID_WEBHOOK_URL".toList, .error⟩]
        else errors
    | none => errors
  let errors :=
    match p.attachmentData with
    | some u =>
        if intent = .UPLOAD_ATTACHMENT && u ≠ [] && !isValidUrl u then
          errors ++ [⟨"attachmentData.url", "La URL del adjunto no es válida",
                      "INVALID_ATTACHMENT_URL".toList, .error⟩]
        else errors
    | none => errors
  let warnings : List ValidationWarning :=
    if includes (intentStr intent).toList "batch_" && truthyNum p.maxRecords &&
        p.maxRecords.getD 0 > 10 then
      [⟨"maxRecords", "El tamaño del lote es mayor a 10, se recomienda usar un valor menor",
        "LARGE_BATCH_SIZE",
        some "Usar un tamaño de lote de 10 o menos para mejor rendimiento"⟩]
    else []
  let errors :=
    if truthyStr p.table then
      let t := p.table.getD []
      let errors := if t.length > 50 then
          errors ++ [⟨"table", "El nombre de la tabla es demasiado largo",
                      "TABLE_NAME_TOO_LONG".toList, .error⟩]
        else errors
      if !tableNameOk t then
        errors ++ [⟨"table", "El nombre de la tabla contiene caracteres no válidos",
                    "INVALID_TABLE_NAME".toList, .error⟩]
      else errors
    else errors
  let errors :=
    if truthyStr p.recordId then
      if !recordIdOk (p.recordId.getD []) then
        errors ++ [⟨"recordId", "El ID del registro no es válido",
                    "INVALID_RECORD_ID".toList, .error⟩]
      else errors
    else errors
  { isValid := errors.isEmpty, errors := errors, warnings := warnings,
    suggestions := [] }

/-- `ValidationEngine.validate`. -/
def validate (intent : IntentType) (parameters : QueryParameters)
    (context : ConversationContext) : ValidationResult :=
  let ruleErrors :=
    (validationRules intent).foldl (fun acc rule =>
      let value := getParameterValue parameters rule.parameter
      match rule.typ with
      | .required =>
          if !pvalTruthy value then
            acc ++ [⟨rule.parameter, rule.errorMessage,
                     errCode "MISSING" rule.parameter, .error⟩]
          else acc
      | .conditional =>
          match value with
          | some v =>
              if pvalTruthy value && !rule.check v then
                acc ++ [⟨rule.parameter, rule.errorMessage,
                         errCode "INVALID" rule.parameter, .error⟩]
              else acc
          | none => acc) []
  let additional := performAdditionalValidations intent parameters context
  let errors := ruleErrors ++ additional.errors
  { isValid := errors.isEmpty, errors := errors,
    warnings := additional.warnings, suggestions := additional.suggestions }

/-! ### Clarifications and confidence (`NaturalLanguageProcessor`) -/

/-- `NaturalLanguageProcessor.determineClarifications` (its `validation`
argument is unused in the source as well). -/
def determineClarifications (intent : IntentType) (entities : ExtractedEntities)
    (_validation : ValidationResult) : List Clarification :=
  (if requiresTable intent && !truthyStr entities.tableName then
    [⟨"¿En qué tabla quieres realizar esta operación?", .missing_table, true⟩]
   else []) ++
  (if requiresRecordId intent && !truthyStr entities.recordId then
    [⟨"¿Cuál es el ID del registro que quieres actualizar?", .missing_value, true⟩]
   else []) ++
  (if intent = .CREATE_WEBHOOK && !truthyStr entities.webhookUrl then
    [⟨"¿Cuál es la URL del webhook que quieres crear?", .missing_value, true⟩]
   else []) ++
  (if intent = .UPLOAD_ATTACHMENT && !truthyStr entities.attachmentUrl then
    [⟨"¿Cuál es la URL del archivo que quieres adjuntar?", .missing_value, true⟩]
   else [])

/-- `NaturalLanguageProcessor.calculateConfidence` (JS numbers as exact
rationals). -/
def calculateConfidence (intent : IntentType) (entities : ExtractedEntities)
    (validation : ValidationResult) (semanticAnalysis : SemanticAnalysis) : ℚ :=
  let confidence : ℚ := 0.5
  let confidence := if intent ≠ .UNKNOWN then confidence + 0.2 else confidence
  let confidence := confidence + min ((entityCount entities : ℚ) * 0.1) 0.3
  let confidence := if validation.isValid then confidence + 0.2 else confidence
  let confidence := if semanticAnalysis.confidence > 0.7 then confidence + 0.1 else confidence
  min confidence 1

/-! ### Context handler (`context-handler.ts`) -/

/-- The `Map<string, ConversationContext>` as an insertion-ordered
association list. -/
abbrev ContextStore := List (List Char × ConversationContext)

def storeGet (st : ContextStore) (sid : List Char) : Option ConversationContext :=
  (st.find? (fun e => e.1 = sid)).map (·.2)

/-- `Map.set`: replace in place, or append a new entry. -/
def storeSet (sid : List Char) (c : ConversationContext) :
    ContextStore → ContextStore
  | [] => [(sid, c)]
  | (k, v) :: tl => if k = sid then (k, c) :: tl else (k, v) :: storeSet sid c tl

/-- `ContextHandler.createNewContext`. -/
def createNewContext (sid uid : List Char) : ConversationContext :=
  { sessionId := sid, userId := uid,
    currentBaseId := none, currentTable := none, currentRecordId := none,
    previousQueries := [],
    mentionedEntities := ⟨[], [], []⟩,
    preferences := ⟨"es".toList, "YYYY-MM-DD".toList, "natural".toList⟩ }

/-- `ContextHandler.getContext`: return the stored context, or create and
*insert* a fresh one (this insertion is the store's only mutation before the
final update step). -/
def getContext (st : ContextStore) (sid uid : List Char) :
    ConversationContext × ContextStore :=
  match storeGet st sid with
  | some c => (c, st)
  | none =>
      let c := createNewContext sid uid
      (c, storeSet sid c st)

/-- `array.slice(-k)`.  JS evaluates `-0` as `+0`, so `slice(-0)` returns the
whole array; for positive `k` it keeps the last `k` elements. -/
def jsSliceNeg (k : Nat) (l : List PreviousQuery) : List PreviousQuery :=
  if k = 0 then l else l.drop (l.length - k)

/-- The data `updateContext` receives from the orchestrator (which passes
`{ intent, entities, parameters, query, confidence }`; only these fields are
read). -/
structure TurnData where
  query : List Char
  intent : IntentType
  entities : ExtractedEntities
  result : Option (List Char) := none

/-- The "update mentioned entities" block of `ContextHandler.updateContext`:
current-pointer updates and deduplicated appends to the mentioned-entity
lists, in source order. -/
def applyEntityUpdates (context : ConversationContext)
    (entities : ExtractedEntities) : ConversationContext :=
  let context :=
    if truthyStr entities.tableName then
      let tn := entities.tableName.getD []
      let me := context.mentionedEntities
      let me := if me.tables.contains tn then me
                else { me with tables := me.tables ++ [tn] }
      { context with mentionedEntities := me, currentTable := some tn }
    else context
  let context :=
    if truthyStr entities.recordId then
      let rid := entities.recordId.getD []
      let me := context.mentionedEntities
      let me := if me.records.contains rid then me
                else { me with records := me.records ++ [rid] }
      { context with mentionedEntities := me, currentRecordId := some rid }
    else context
  let context :=
    if truthyStr entities.baseId then
      { context with currentBaseId := entities.baseId }
    else context
  let context :=
    if truthyStr entities.fieldName then
      let fn := entities.fieldName.getD []
      let me := context.mentionedEntities
      let me := if me.fields.contains fn then me
                else { me with fields := me.fields ++ [fn] }
      { context with mentionedEntities := me }
    else context
  context

/-- `ContextHandler.updateContext`: append the turn to the history, truncate
with `slice(-max)`, apply the entity updates, store back.  Returns `none` when
the session is absent (the source throws `Context not found` there). -/
def updateContext (maxContextQueries : Nat) (st : ContextStore)
    (sid : List Char) (d : TurnData) : Option ContextStore :=
  match storeGet st sid with
  | none => none
  | some context =>
      let pq : PreviousQuery := ⟨d.query, d.intent, d.result⟩
      let h := context.previousQueries ++ [pq]
      let h := if h.length > maxContextQueries then jsSliceNeg maxContextQueries h else h
      let context := { context with previousQueries := h }
      let context := applyEntityUpdates context d.entities
      some (storeSet sid context st)

/-! ### Orchestrator (`NaturalLanguageProcessor.processQuery`) -/

structure ProcessedQuery where
  intent : IntentType
  entities : ExtractedEntities
  parameters : QueryParameters
  confidence : ℚ
  requiresClarification : Bool
  clarifications : List Clarification
deriving DecidableEq, Repr

/-- The values the pipeline stages hand to the final result assembly. -/
structure StageOutcome where
  intent : IntentType
  entities : ExtractedEntities
  parameters : QueryParameters
  validation : ValidationResult
  confidence : ℚ

/-- Steps 9–12 of `processQuery`: clarification determination, the
`requiresClarification` flag, and the returned record. -/
def assembleProcessed (o : StageOutcome) : ProcessedQuery :=
  let clarifications := determineClarifications o.intent o.entities o.validation
  { intent := o.intent, entities := o.entities, parameters := o.parameters,
    confidence := o.confidence,
    requiresClarification := clarifications.length > 0,
    clarifications := clarifications }

/-- The `catch` branch of `processQuery`: the fixed terminal result returned
when any stage throws. -/
def catchResult : ProcessedQuery :=
  { intent := .UNKNOWN, entities := {}, parameters := {}, confidence := 0,
    requiresClarification := true,
    clarifications :=
      [⟨"Lo siento, no pude entender tu consulta. ¿Podrías reformularla de manera más específica?",
        .ambiguous_reference, true⟩] }

/-- The try/catch boundary of `processQuery`: a normal stage outcome is
assembled into the result; any in-pipeline exception yields `catchResult`. -/
def processQueryResult : Except Unit StageOutcome → ProcessedQuery
  | .ok o => assembleProcessed o
  | .error _ => catchResult

/-- All persistent state of a `NaturalLanguageProcessor` instance: the
mapper's stateful compiled patterns and the context store. -/
structure NLPState where
  mapper : MapperState
  contexts : ContextStore

def initNLPState : NLPState := ⟨initMapper, []⟩

/-- `NaturalLanguageProcessor.processQuery`: the strictly ordered pipeline.
`dates` supplies the clock-dependent strings of `processRelativeValues`.
The `updateContext`-missing branch (the only statement in the pipeline that
can throw) is routed to the `catch` shape; it is in fact unreachable because
`getContext` has just ensured the session exists. -/
def processQueryRun (st : NLPState) (rawQuery sessionId userId : List Char)
    (dates : RelDates) : ProcessedQuery × NLPState :=
  let normalizedQuery := normalizeQuery rawQuery
  let sid := if sessionId ≠ [] then sessionId else "default".toList
  let uid := if userId ≠ [] then userId else "anonymous".toList
  let (context, contexts1) := getContext st.contexts sid uid
  let semanticAnalysis := analyze normalizedQuery context
  let (intent, mapper1) := mapIntent st.mapper normalizedQuery semanticAnalysis context
  let entities := extractEntities normalizedQuery intent context
  let processedEntities := processRelativeValues entities rawQuery dates
  let parameters := buildQueryParameters intent processedEntities context
  let validation := validate intent parameters context
  let confidence := calculateConfidence intent processedEntities validation semanticAnalysis
  match updateContext 10 contexts1 sid
      ⟨rawQuery, intent, processedEntities, none⟩ with
  | some contexts2 =>
      (processQueryResult (.ok ⟨intent, processedEntities, parameters, validation, confidence⟩),
       ⟨mapper1, contexts2⟩)
  | none =>
      (processQueryResult (.error ()), ⟨mapper1, contexts1⟩)

/-- The store as it stands between `getContext` (step 2) and the final
`updateContext` (step 11): every intermediate stage is pure, so this is the
exact store state at any abandonment point before the final update. -/
def preUpdateStore (st : NLPState) (sessionId userId : List Char) : ContextStore :=
  let sid := if sessionId ≠ [] then sessionId else "default".toList
  let uid := if userId ≠ [] then userId else "anonymous".toList
  (getContext st.contexts sid uid).2

/-! ### Theorems -/

/-- Concrete stand-in for the clock-dependent date strings (none of the
scenario queries contains a date word, so these values are never used). -/
def sampleDates : RelDates :=
  ⟨"2026-10-12".toList, "2026-10-11".toList, "2026-10-10".toList⟩

/-- The confidence formula exactly as the specification words it:
`min(1, 0.5 + (0.2 if intent ≠ unknown) + min(0.1·slots, 0.3) +
(0.2 if valid) + (0.1 if semantic confidence > 0.7))`. -/
def specConfidenceFormula (intent : IntentType) (entities : ExtractedEntities)
    (validation : ValidationResult) (semanticAnalysis : SemanticAnalysis) : ℚ :=
  min 1 (0.5 + (if intent ≠ .UNKNOWN then 0.2 else 0)
    + min (0.1 * (entityCount entities : ℚ)) 0.3
    + (if validation.isValid then 0.2 else 0)
    + (if semanticAnalysis.confidence > 0.7 then 0.1 else 0))

/-- C1: for every intent, extracted-entity record, validation result and
semantic analysis reaching the confidence step, the computed confidence equals
`min(1, 0.5 + (0.2 if intent ≠ unknown) + min(0.1·filledSlots, 0.3) +
(0.2 if validation succeeded) + (0.1 if semantic confidence > 0.7))`,
and this value lies in `[0, 1]`. -/
theorem calculateConfidence_matches_spec (i : IntentType) (e : ExtractedEntities)
    (v : ValidationResult) (s : SemanticAnalysis) :
    calculateConfidence i e v s = specConfidenceFormula i e v s ∧
    0 ≤ calculateConfidence i e v s ∧ calculateConfidence i e v s ≤ 1 := by
  have heq : calculateConfidence i e v s = specConfidenceFormula i e v s := by
    unfold calculateConfidence specConfidenceFormula
    rw [min_comm]
    split_ifs <;> · congr 1; ring_nf
  refine ⟨heq, ?_, ?_⟩
  · rw [heq]
    unfold specConfidenceFormula
    have hmin : (0 : ℚ) ≤ min (0.1 * (entityCount e : ℚ)) 0.3 :=
      le_min (by positivity) (by norm_num)
    refine le_min (by norm_num) ?_
    split_ifs <;> linarith
  · rw [heq]
    unfold specConfidenceFormula
    exact min_le_left _ _

/-- C2: for every ProcessedQuery produced at the processQuery boundary — the
normal assembly as well as the internal-failure result — the
`requiresClarification` flag is true exactly when the clarification list is
non-empty. -/
theorem requiresClarification_iff_nonempty (r : Except Unit StageOutcome) :
    (processQueryResult r).requiresClarification = true ↔
      (processQueryResult r).clarifications ≠ [] := by
  cases r with
  | ok o =>
      simp only [processQueryResult, assembleProcessed, decide_eq_true_eq,
        gt_iff_lt, List.length_pos]
  | error e =>
      simp [processQueryResult, catchResult]

/-- C3: whenever a pipeline stage fails, processQuery returns the terminal
result — intent `unknown`, confidence 0, `requiresClarification = true`, and
exactly one clarification, of kind `ambiguous_reference` — instead of
propagating the exception. -/
theorem processQuery_catch_shape (e : Unit) :
    (processQueryResult (.error e)).intent = .UNKNOWN ∧
    (processQueryResult (.error e)).confidence = 0 ∧
    (processQueryResult (.error e)).requiresClarification = true ∧
    (processQueryResult (.error e)).clarifications.length = 1 ∧
    ∀ c ∈ (processQueryResult (.error e)).clarifications,
      c.type = .ambiguous_reference := by
  refine ⟨rfl, rfl, rfl, rfl, ?_⟩
  intro c hc
  simp only [processQueryResult, catchResult, List.mem_singleton] at hc
  rw [hc]

/-- C4 (counter-evidence): processing the same query `"buscar registros que"`
twice on the same fresh session yields `search_records` the first time and
`unknown` the second, and `mapIntent` itself — invoked twice with the *same*
query, semantic analysis and context — also flips from `search_records` to
`unknown`: the `/g`-regex `lastIndex` retained in the mapper's pattern table
makes the intent mapper non-deterministic across repeated invocations, while
the extracted entities happen to coincide. -/
theorem processQuery_repeat_intent_differs :
    (processQueryRun initNLPState ("buscar registros que".toList)
        ("s1".toList) ("u1".toList) sampleDates).1.intent =
      IntentType.SEARCH_RECORDS ∧
    (processQueryRun
        (processQueryRun initNLPState ("buscar registros que".toList)
          ("s1".toList) ("u1".toList) sampleDates).2
        ("buscar registros que".toList)
        ("s1".toList) ("u1".toList) sampleDates).1.intent =
      IntentType.UNKNOWN ∧
    (processQueryRun initNLPState ("buscar registros que".toList)
        ("s1".toList) ("u1".toList) sampleDates).1.entities =
      (processQueryRun
        (processQueryRun initNLPState ("buscar registros que".toList)
          ("s1".toList) ("u1".toList) sampleDates).2
        ("buscar registros que".toList)
        ("s1".toList) ("u1".toList) sampleDates).1.entities ∧
    (mapIntent initMapper ("buscar registros que".toList)
        (analyze ("buscar registros que".toList)
          (createNewContext ("s1".toList) ("u1".toList)))
        (createNewContext ("s1".toList) ("u1".toList))).1 =
      IntentType.SEARCH_RECORDS ∧
    (mapIntent
        (mapIntent initMapper ("buscar registros que".toList)
          (analyze ("buscar registros que".toList)
            (createNewContext ("s1".toList) ("u1".toList)))
          (createNewContext ("s1".toList) ("u1".toList))).2
        ("buscar registros que".toList)
        (analyze ("buscar registros que".toList)
          (createNewContext ("s1".toList) ("u1".toList)))
        (createNewContext ("s1".toList) ("u1".toList))).1 =
      IntentType.UNKNOWN := by
  decide

/-- C7 (what the code actually does): the scenario query is normalized to
`"listar …"`, so the `mostrarme`-phrased list-records pattern can never match;
the keyword fallback classifies it as `list_tables`, and the entity extractor
captures `"la"` (the article after the first `"en"`) as the table name.  The
clarification list is empty and the confidence is 1 ≥ 0.7. -/
theorem processQuery_scenario_mostrarme :
    (processQueryRun initNLPState
        ("mostrarme todos los registros en la tabla Proyectos".toList)
        ("s1".toList) ("u1".toList) sampleDates).1.intent =
      IntentType.LIST_TABLES ∧
    (processQueryRun initNLPState
        ("mostrarme todos los registros en la tabla Proyectos".toList)
        ("s1".toList) ("u1".toList) sampleDates).1.entities.tableName =
      some ("la".toList) ∧
    (processQueryRun initNLPState
        ("mostrarme todos los registros en la tabla Proyectos".toList)
        ("s1".toList) ("u1".toList) sampleDates).1.clarifications = [] ∧
    (processQueryRun initNLPState
        ("mostrarme todos los registros en la tabla Proyectos".toList)
        ("s1".toList) ("u1".toList) sampleDates).1.confidence = 1 := by
  decide

/-- C8 (counterexample): on `"asdkj qwoe"` the pipeline returns *no*
clarification, `requiresClarification = false`, and confidence `0.7` (not 0):
`determineClarifications` produces nothing for intent `unknown`, and the
valid (empty) parameter set still contributes `+0.2` to the base `0.5`. -/
theorem processQuery_asdkj_not_as_claimed :
    (processQueryRun initNLPState ("asdkj qwoe".toList)
        ("s1".toList) ("u1".toList) sampleDates).1.requiresClarification = false ∧
    (processQueryRun initNLPState ("asdkj qwoe".toList)
        ("s1".toList) ("u1".toList) sampleDates).1.clarifications = [] ∧
    (processQueryRun initNLPState ("asdkj qwoe".toList)
        ("s1".toList) ("u1".toList) sampleDates).1.confidence ≠ 0 := by
  decide

/-- C8 (amended): `"asdkj qwoe"` with an empty session context yields intent
`unknown`, confidence `0.7`, an empty clarification list and
`requiresClarification = false`. -/
theorem processQuery_asdkj_actual :
    (processQueryRun initNLPState ("asdkj qwoe".toList)
        ("s1".toList) ("u1".toList) sampleDates).1.intent = IntentType.UNKNOWN ∧
    (processQueryRun initNLPState ("asdkj qwoe".toList)
        ("s1".toList) ("u1".toList) sampleDates).1.confidence = 0.7 ∧
    (processQueryRun initNLPState ("asdkj qwoe".toList)
        ("s1".toList) ("u1".toList) sampleDates).1.requiresClarification = false ∧
    (processQueryRun initNLPState ("asdkj qwoe".toList)
        ("s1".toList) ("u1".toList) sampleDates).1.clarifications = [] := by
  decide

/-- C9 (what the code actually does): `"eliminar webhook abc123"` maps to
intent `delete_webhook` with no clarification, but the webhook-id regex
`/(?:webhook\s+)?([a-zA-Z0-9]+)/` matches at position 0 with its optional
prefix absent, so the extracted `webhookId` is `"eliminar"`, not `"abc123"`. -/
theorem processQuery_scenario_delete_webhook :
    (processQueryRun initNLPState ("eliminar webhook abc123".toList)
        ("s1".toList) ("u1".toList) sampleDates).1.intent =
      IntentType.DELETE_WEBHOOK ∧
    (processQueryRun initNLPState ("eliminar webhook abc123".toList)
        ("s1".toList) ("u1".toList) sampleDates).1.entities.webhookId =
      some ("eliminar".toList) ∧
    (processQueryRun initNLPState ("eliminar webhook abc123".toList)
        ("s1".toList) ("u1".toList) sampleDates).1.entities.webhookId ≠
      some ("abc123".toList) ∧
    (processQueryRun initNLPState ("eliminar webhook abc123".toList)
        ("s1".toList) ("u1".toList) sampleDates).1.clarifications = [] := by
  decide

/-! Helper lemmas for the context-store claims. -/

theorem storeGet_storeSet_self (st : ContextStore) (sid : List Char)
    (c : ConversationContext) : storeGet (storeSet sid c st) sid = some c := by
  induction st with
  | nil =>
      simp only [storeSet, storeGet]
      rw [List.find?_cons_of_pos _ (by simp)]
      rfl
  | cons kv tl ih =>
      obtain ⟨k, v⟩ := kv
      by_cases hk : k = sid
      · simp only [storeSet, if_pos hk, storeGet]
        rw [List.find?_cons_of_pos _ (by simp [hk])]
        rfl
      · simp only [storeSet, if_neg hk, storeGet] at ih ⊢
        rw [List.find?_cons_of_neg _ (by simp [hk])]
        exact ih

/-- The turn record `updateContext` appends to the history. -/
def turnToPrev (d : TurnData) : PreviousQuery := ⟨d.query, d.intent, d.result⟩

/-- The entity-pointer updates never touch the query history. -/
theorem applyEntityUpdates_previousQueries (c : ConversationContext)
    (e : ExtractedEntities) :
    (applyEntityUpdates c e).previousQueries = c.previousQueries := by
  unfold applyEntityUpdates
  split_ifs <;> rfl

/-- One `updateContext` call on a present session: it succeeds, and the new
history is the pushed-then-truncated old history. -/
theorem updateContext_step (maxq : Nat) (st : ContextStore) (sid : List Char)
    (d : TurnData) (ctx : ConversationContext)
    (h : storeGet st sid = some ctx) :
    ∃ ctx', updateContext maxq st sid d = some (storeSet sid ctx' st) ∧
      storeGet (storeSet sid ctx' st) sid = some ctx' ∧
      ctx'.previousQueries =
        (if (ctx.previousQueries ++ [turnToPrev d]).length > maxq then
          jsSliceNeg maxq (ctx.previousQueries ++ [turnToPrev d])
        else ctx.previousQueries ++ [turnToPrev d]) := by
  unfold updateContext
  rw [h]
  refine ⟨_, rfl, storeGet_storeSet_self _ _ _, ?_⟩
  rw [applyEntityUpdates_previousQueries]
  dsimp only [turnToPrev]

/-- `n` successive `update` calls on one session. -/
def runUpdates (maxq : Nat) (sid : List Char) (st : ContextStore) :
    List TurnData → Option ContextStore
  | [] => some st
  | d :: ds =>
      match updateContext maxq st sid d with
      | some st' => runUpdates maxq sid st' ds
      | none => none

/-- Push-then-truncate advances the `last maxq` window, for positive `maxq`. -/
theorem step_window (maxq : Nat) (hmax : 1 ≤ maxq) (acc : List PreviousQuery)
    (x : PreviousQuery) :
    (if ((acc.drop (acc.length - maxq)) ++ [x]).length > maxq then
      jsSliceNeg maxq ((acc.drop (acc.length - maxq)) ++ [x])
    else (acc.drop (acc.length - maxq)) ++ [x]) =
      (acc ++ [x]).drop ((acc ++ [x]).length - maxq) := by
  by_cases hcase : acc.length < maxq
  · have h0 : acc.length - maxq = 0 := by omega
    rw [h0, List.drop_zero]
    rw [if_neg (by simp only [List.length_append, List.length_singleton]; omega)]
    have h1 : (acc ++ [x]).length - maxq = 0 := by
      simp only [List.length_append, List.length_singleton]; omega
    rw [h1, List.drop_zero]
  · push_neg at hcase
    have hlen : (acc.drop (acc.length - maxq)).length = maxq := by
      rw [List.length_drop]; omega
    rw [if_pos (by simp only [List.length_append, List.length_singleton]; omega)]
    unfold jsSliceNeg
    rw [if_neg (by omega)]
    have hd1 : ((acc.drop (acc.length - maxq)) ++ [x]).length - maxq = 1 := by
      simp only [List.length_append, List.length_singleton]; omega
    have hd2 : (acc ++ [x]).length - maxq = acc.length + 1 - maxq := by
      simp only [List.length_append, List.length_singleton]
    rw [hd1, hd2]
    rw [List.drop_append_of_le_length (by omega),
        List.drop_append_of_le_length (by omega)]
    rw [List.drop_drop]
    congr 2
    omega

/-- Invariant form of the FIFO property, for induction over the turn list. -/
theorem runUpdates_window (maxq : Nat) (hmax : 1 ≤ maxq) (sid : List Char)
    (ds : List TurnData) :
    ∀ (st : ContextStore) (ctx : ConversationContext) (acc : List PreviousQuery),
    storeGet st sid = some ctx →
    ctx.previousQueries = acc.drop (acc.length - maxq) →
    ∃ ctx', (runUpdates maxq sid st ds).bind (fun st' => storeGet st' sid) = some ctx' ∧
      ctx'.previousQueries =
        (acc ++ ds.map turnToPrev).drop ((acc ++ ds.map turnToPrev).length - maxq) := by
  induction ds with
  | nil =>
      intro st ctx acc hst hacc
      exact ⟨ctx, by simpa [runUpdates] using hst, by simpa using hacc⟩
  | cons d ds ih =>
      intro st ctx acc hst hacc
      obtain ⟨ctx1, hupd, hget1, hhist1⟩ := updateContext_step maxq st sid d ctx hst
      rw [hacc, step_window maxq hmax acc (turnToPrev d)] at hhist1
      obtain ⟨ctx', hrun, hwin⟩ :=
        ih (storeSet sid ctx1 st) ctx1 (acc ++ [turnToPrev d]) hget1 hhist1
      refine ⟨ctx', ?_, ?_⟩
      · unfold runUpdates
        rw [hupd]
        exact hrun
      · simpa [List.append_assoc] using hwin

/-- C5 (amended, for a positive configured maximum): starting from a freshly
created session, after any sequence of `update` calls the history is exactly
the last `maxContextQueries` turns in arrival order (oldest dropped first),
hence never longer than the configured maximum. -/
theorem updateContext_history_fifo (maxq : Nat) (hmax : 1 ≤ maxq)
    (sid uid : List Char) (ds : List TurnData) :
    ∃ ctx', (runUpdates maxq sid ((getContext [] sid uid).2) ds).bind
        (fun st' => storeGet st' sid) = some ctx' ∧
      ctx'.previousQueries =
        (ds.map turnToPrev).drop ((ds.map turnToPrev).length - maxq) ∧
      ctx'.previousQueries.length ≤ maxq := by
  obtain ⟨ctx', hrun, hwin⟩ :=
    runUpdates_window maxq hmax sid ds ((getContext [] sid uid).2)
      (createNewContext sid uid) []
      (storeGet_storeSet_self [] sid (createNewContext sid uid))
      (by simp [createNewContext])
  refine ⟨ctx', hrun, by simpa using hwin, ?_⟩
  have hlen := congrArg List.length hwin
  simp only [List.nil_append] at hlen
  rw [hlen, List.length_drop]
  omega

/-- Witness for `updateContext_history_fifo`: `maxq = 2`, three turns. -/
theorem updateContext_history_fifo_witness :
    1 ≤ 2 ∧
    ∃ ctx', (runUpdates 2 ("s".toList) ((getContext [] ("s".toList) ("u".toList)).2)
        [⟨"a".toList, .UNKNOWN, {}, none⟩, ⟨"b".toList, .UNKNOWN, {}, none⟩,
         ⟨"c".toList, .UNKNOWN, {}, none⟩]).bind
        (fun st' => storeGet st' ("s".toList)) = some ctx' ∧
      ctx'.previousQueries =
        (([⟨"a".toList, .UNKNOWN, {}, none⟩, ⟨"b".toList, .UNKNOWN, {}, none⟩,
           ⟨"c".toList, .UNKNOWN, {}, none⟩] : List TurnData).map turnToPrev).drop
          ((([⟨"a".toList, .UNKNOWN, {}, none⟩, ⟨"b".toList, .UNKNOWN, {}, none⟩,
              ⟨"c".toList, .UNKNOWN, {}, none⟩] : List TurnData).map turnToPrev).length - 2) ∧
      ctx'.previousQueries.length ≤ 2 :=
  ⟨by norm_num,
   updateContext_history_fifo 2 (by norm_num) ("s".toList) ("u".toList) _⟩

/-- C5 (counterexample to the unrestricted claim): with a configured maximum
of 0, `slice(-0)` keeps the whole array, so one update leaves a history of
length 1 > 0. -/
theorem updateContext_maxZero_exceeds :
    ((updateContext 0 ((getContext [] ("s".toList) ("u".toList)).2) ("s".toList)
        ⟨"q".toList, .UNKNOWN, {}, none⟩).map
      (fun st => (storeGet st ("s".toList)).map
        (fun c => c.previousQueries.length))) = some (some 1) ∧
    ¬ (1 ≤ 0) := by
  constructor
  · decide
  · omega

/-- C6 (counterexample): for a session id not yet in the store, the store
observed between step 2 (`getContext`) and the final update step already
differs from the store before the call — `getContext` inserts a fresh entry. -/
theorem preUpdateStore_inserts_fresh_session :
    storeGet initNLPState.contexts ("s1".toList) = none ∧
    preUpdateStore initNLPState ("s1".toList) ("u1".toList) ≠
      initNLPState.contexts ∧
    storeGet (preUpdateStore initNLPState ("s1".toList) ("u1".toList))
      ("s1".toList) =
      some (createNewContext ("s1".toList) ("u1".toList)) := by
  decide

/-- C6 (amended): before the final update step the only store mutation is
`getContext`'s lazy insertion of a fresh empty context for a previously unseen
session id; for a session already present the store is exactly as it was
before the call, every other intermediate state being local to the call. -/
theorem preUpdateStore_frame (st : NLPState) (sid uid : List Char)
    (hsid : sid ≠ []) (huid : uid ≠ []) :
    (∀ c, storeGet st.contexts sid = some c →
      preUpdateStore st sid uid = st.contexts) ∧
    (storeGet st.contexts sid = none →
      preUpdateStore st sid uid =
        storeSet sid (createNewContext sid uid) st.contexts) := by
  constructor
  · intro c hc
    unfold preUpdateStore getContext
    rw [if_pos hsid, if_pos huid]
    dsimp only
    rw [hc]
  · intro hn
    unfold preUpdateStore getContext
    rw [if_pos hsid, if_pos huid]
    dsimp only
    rw [hn]

/-- Witness for `preUpdateStore_frame` on a store already holding the
session. -/
theorem preUpdateStore_frame_witness :
    preUpdateStore
        ⟨initMapper, [(("s1".toList), createNewContext ("s1".toList) ("u1".toList))]⟩
        ("s1".toList) ("u1".toList) =
      (⟨initMapper, [(("s1".toList), createNewContext ("s1".toList) ("u1".toList))]⟩ :
        NLPState).contexts :=
  (preUpdateStore_frame
      ⟨initMapper, [(("s1".toList), createNewContext ("s1".toList) ("u1".toList))]⟩
      ("s1".toList) ("u1".toList) (by decide) (by decide)).1
    (createNewContext ("s1".toList) ("u1".toList)) (by decide)

/-! Engine lemmas for the table-name capture (claim C10). -/

/-- Matching only ever moves forward: every reachable end position is at or
after the start position. -/
theorem mem_matchAtoms_le (s : List Char) (atoms : List Atom) :
    ∀ i x, x ∈ matchAtoms s atoms i → i ≤ x := by
  induction atoms with
  | nil =>
      intro i x hx
      simp only [matchAtoms, List.mem_singleton] at hx
      omega
  | cons a rest ih =>
      intro i x hx
      cases a with
      | cls p =>
          simp only [matchAtoms] at hx
          split at hx
          · split at hx
            · have := ih _ _ hx; omega
            · exact absurd hx (List.not_mem_nil x)
          · exact absurd hx (List.not_mem_nil x)
      | star lzy min1 p =>
          simp only [matchAtoms, List.mem_flatMap] at hx
          obtain ⟨k, _, hx⟩ := hx
          have := ih _ _ hx
          omega
      | eol =>
          simp only [matchAtoms] at hx
          split at hx
          · exact ih _ _ hx
          · exact absurd hx (List.not_mem_nil x)
      | bdry =>
          simp only [matchAtoms] at hx
          split at hx <;> split at hx <;>
            first
            | exact ih _ _ hx
            | exact absurd hx (List.not_mem_nil x)

/-- A successful position scan reports a position where `capAt` succeeds. -/
theorem capSearchAux_eq_some (s : List Char) (cp : CapPat) :
    ∀ fuel j st p1 p2 p3,
    capSearchAux s cp fuel j = some (st, p1, p2, p3) →
    capAt s cp st = some (p1, p2, p3) := by
  intro fuel
  induction fuel with
  | zero =>
      intro j st p1 p2 p3 h
      simp [capSearchAux] at h
  | succ f ih =>
      intro j st p1 p2 p3 h
      simp only [capSearchAux] at h
      split at h
      · rename_i a b c heq
        obtain ⟨rfl, rfl, rfl, rfl⟩ : j = st ∧ a = p1 ∧ b = p2 ∧ c = p3 := by
          simpa using h
        exact heq
      · exact ih _ _ _ _ _ h

/-- A successful `capAt` puts the capture end among the positions reachable by
the capture group from the capture start. -/
theorem capAt_cap_mem (s : List Char) (cp : CapPat) (j p1 p2 p3 : Nat)
    (h : capAt s cp j = some (p1, p2, p3)) :
    p2 ∈ matchSeq s cp.cap p1 := by
  unfold capAt at h
  obtain ⟨a, ha, h2⟩ := List.exists_of_findSome?_eq_some h
  obtain ⟨b, hb, h3⟩ := List.exists_of_findSome?_eq_some h2
  rw [Option.map_eq_some'] at h3
  obtain ⟨c, _, heq⟩ := h3
  obtain ⟨rfl, rfl, rfl⟩ : a = p1 ∧ b = p2 ∧ c = p3 := by
    simpa [Prod.ext_iff] using heq
  exact hb

/-- Matching a one-alternative group sequence is matching its atoms. -/
theorem mem_matchSeq_single (s : List Char) (alt : List Atom) (i x : Nat)
    (h : x ∈ matchSeq s [RElem.grp false [alt]] i) :
    x ∈ matchAtoms s alt i := by
  simp only [matchSeq, Bool.false_eq_true, if_false, List.mem_flatMap,
    List.flatMap_cons, List.flatMap_nil, List.append_nil] at h
  obtain ⟨a, ha, hx⟩ := h
  simp only [matchSeq, List.mem_singleton] at hx
  subst hx
  exact ha

/-- The first atom of a class match pins down the character at the start
position. -/
theorem mem_matchAtoms_cls (s : List Char) (p : Char → Bool) (rest : List Atom)
    (i x : Nat) (h : x ∈ matchAtoms s (Atom.cls p :: rest) i) :
    ∃ c, charAt? s i = some c ∧ p c = true ∧ x ∈ matchAtoms s rest (i + 1) := by
  simp only [matchAtoms] at h
  split at h
  · rename_i c heq
    split at h
    · rename_i hp
      exact ⟨c, heq, hp, h⟩
    · exact absurd h (List.not_mem_nil x)
  · exact absurd h (List.not_mem_nil x)

/-- A slice whose start character is known and whose end is past the start is
a cons. -/
theorem sliceL_cons (s : List Char) (p1 p2 : Nat) (c : Char)
    (hc : charAt? s p1 = some c) (hlt : p1 < p2) :
    ∃ rest, sliceL s p1 p2 = c :: rest := by
  unfold charAt? at hc
  rw [List.get?_eq_some] at hc
  obtain ⟨hlen, hget⟩ := hc
  unfold sliceL
  rw [List.drop_eq_getElem_cons hlen]
  have h2 : p2 - p1 = (p2 - p1 - 1) + 1 := by omega
  rw [h2, List.take_succ_cons]
  exact ⟨_, by rw [← hget]; rfl⟩

/-- The lead class of the table-name capture contains no whitespace. -/
theorem tblLead_not_ws (c : Char) (h : tblLead c = true) : isWsChar c = false := by
  cases hw : isWsChar c
  · rfl
  · exfalso
    have hcc : c = ' ' ∨ c = '\t' ∨ c = '\n' ∨ c = '\r' ∨ c = '\x0b' ∨ c = '\x0c' := by
      simpa [isWsChar, or_assoc] using hw
    rcases hcc with rfl | rfl | rfl | rfl | rfl | rfl <;> revert h <;> decide

theorem dropWhile_append_singleton_ne_nil (p : Char → Bool) (xs : List Char)
    (c : Char) (hc : p c = false) : (xs ++ [c]).dropWhile p ≠ [] := by
  induction xs with
  | nil => simp [List.dropWhile_cons, hc]
  | cons a tl ih =>
      by_cases hp : p a = true
      · simpa [List.dropWhile_cons, hp] using ih
      · simp [List.dropWhile_cons, hp]

/-- Trimming keeps a string whose first character is not whitespace. -/
theorem trimList_cons_ne_nil (c : Char) (l : List Char)
    (hc : isWsChar c = false) : trimList (c :: l) ≠ [] := by
  unfold trimList
  rw [List.dropWhile_cons, if_neg (by simp [hc])]
  rw [List.reverse_cons]
  intro hcontra
  exact dropWhile_append_singleton_ne_nil isWsChar l.reverse c hc
    (by simpa [List.reverse_eq_nil_iff] using hcontra)

/-- Any successful table-name capture survives `trim`: its first character is
from the non-whitespace lead class `[a-zA-ZáéíóúñÑ_]`. -/
theorem tableCapture_trim_ne_nil (q : List Char) (j p1 p2 p3 : Nat)
    (h : capSearch q tableNamePat = some (j, p1, p2, p3)) :
    trimList (sliceL q p1 p2) ≠ [] := by
  unfold capSearch capSearchFrom at h
  rw [if_neg (by omega)] at h
  have hcap := capSearchAux_eq_some q tableNamePat _ _ _ _ _ _ h
  have hmem := capAt_cap_mem _ _ _ _ _ _ hcap
  have hmem' : p2 ∈ matchAtoms q [Atom.cls tblLead, Atom.star true false tblBody] p1 :=
    mem_matchSeq_single _ _ _ _ (by simpa [tableNamePat, seqA] using hmem)
  obtain ⟨c, hc, hlead, hrest⟩ := mem_matchAtoms_cls _ _ _ _ _ hmem'
  have hge := mem_matchAtoms_le q _ _ _ hrest
  obtain ⟨rest, hslice⟩ := sliceL_cons q p1 p2 c hc (by omega)
  rw [hslice]
  exact trimList_cons_ne_nil c rest (tblLead_not_ws c hlead)

/-! The slot blocks after the table-name block never write `tableName`. -/

theorem extractRecordIdStep_tableName (e : ExtractedEntities) (q : List Char) :
    (extractRecordIdStep e q).tableName = e.tableName := by
  unfold extractRecordIdStep
  split <;> rfl

theorem extractPriorityStep_tableName (e : ExtractedEntities) (q : List Char) :
    (extractPriorityStep e q).tableName = e.tableName := by
  unfold extractPriorityStep
  split <;> rfl

theorem extractStatusStep_tableName (e : ExtractedEntities) (q : List Char) :
    (extractStatusStep e q).tableName = e.tableName := by
  unfold extractStatusStep
  split <;> rfl

theorem extractWebhookUrlStep_tableName (e : ExtractedEntities) (q : List Char)
    (it : IntentType) : (extractWebhookUrlStep e q it).tableName = e.tableName := by
  unfold extractWebhookUrlStep
  split <;> first | split <;> rfl | rfl

theorem extractWebhookIdStep_tableName (e : ExtractedEntities) (q : List Char)
    (it : IntentType) : (extractWebhookIdStep e q it).tableName = e.tableName := by
  unfold extractWebhookIdStep
  split <;> first | split <;> rfl | rfl

theorem extractAttachmentUrlStep_tableName (e : ExtractedEntities) (q : List Char)
    (it : IntentType) : (extractAttachmentUrlStep e q it).tableName = e.tableName := by
  unfold extractAttachmentUrlStep
  split <;> first | split <;> rfl | rfl

theorem extractCountStep_tableName (e : ExtractedEntities) (q : List Char) :
    (extractCountStep e q).tableName = e.tableName := by
  unfold extractCountStep
  split <;> rfl

theorem extractFieldNamesStep_tableName (e : ExtractedEntities) (q : List Char) :
    (extractFieldNamesStep e q).tableName = e.tableName := by
  unfold extractFieldNamesStep
  dsimp only
  split <;> rfl

theorem contextualRefsStep_tableName (e : ExtractedEntities) (q : List Char)
    (c : ConversationContext) :
    (contextualRefsStep e q c).tableName =
      (if includes q "esa tabla" && truthyStr c.currentTable then c.currentTable
       else e.tableName) := by
  unfold contextualRefsStep
  split_ifs <;> rfl

/-- With a non-empty `currentTable` in the context, the extractor always fills
the `tableName` slot with a non-empty (truthy) value. -/
theorem extractEntities_tableName_truthy (q : List Char) (intent : IntentType)
    (ctx : ConversationContext) (t : List Char)
    (h1 : ctx.currentTable = some t) (h2 : t ≠ []) :
    truthyStr (extractEntities q intent ctx).tableName = true := by
  have htr : truthyStr ctx.currentTable = true := by
    rw [h1]
    simpa [truthyStr] using h2
  unfold extractEntities
  rw [contextualRefsStep_tableName]
  by_cases hdem : (includes q "esa tabla" && truthyStr ctx.currentTable) = true
  · rw [if_pos hdem, h1]
    simpa [truthyStr] using h2
  · rw [if_neg hdem, extractFieldNamesStep_tableName, extractCountStep_tableName,
      extractAttachmentUrlStep_tableName, extractWebhookIdStep_tableName,
      extractWebhookUrlStep_tableName, extractStatusStep_tableName,
      extractPriorityStep_tableName, extractRecordIdStep_tableName]
    unfold extractTableNameStep
    split
    · rename_i st p1 p2 p3 hcap
      have := tableCapture_trim_ne_nil q st p1 p2 p3 hcap
      simpa [truthyStr] using this
    · rw [if_pos htr]
      dsimp only
      rw [h1]
      simpa [truthyStr] using h2

/-- Relative-date processing never touches the `tableName` slot. -/
theorem processRelativeValues_tableName (e : ExtractedEntities)
    (oq : List Char) (dates : RelDates) :
    (processRelativeValues e oq dates).tableName = e.tableName := by
  unfold processRelativeValues
  split_ifs <;> rfl

/-- A `missing_table` clarification is only ever produced when the `tableName`
slot is falsy. -/
theorem missing_table_needs_empty_slot (intent : IntentType)
    (e : ExtractedEntities) (v : ValidationResult)
    (htr : truthyStr e.tableName = true) :
    ∀ c ∈ determineClarifications intent e v,
      c.type ≠ ClarificationType.missing_table := by
  intro c hc
  unfold determineClarifications at hc
  rw [htr] at hc
  rcases List.mem_append.mp hc with hcl | hc4
  case inr =>
    split at hc4
    · rw [List.mem_singleton] at hc4
      subst hc4
      decide
    · exact absurd hc4 (List.not_mem_nil c)
  rcases List.mem_append.mp hcl with hcl | hc3
  case inr =>
    split at hc3
    · rw [List.mem_singleton] at hc3
      subst hc3
      decide
    · exact absurd hc3 (List.not_mem_nil c)
  rcases List.mem_append.mp hcl with hc1 | hc2
  case inr =>
    split at hc2
    · rw [List.mem_singleton] at hc2
      subst hc2
      decide
    · exact absurd hc2 (List.not_mem_nil c)
  rw [Bool.not_true, Bool.and_false] at hc1
  simp at hc1

/-- C10 (amended, for a non-empty `currentTable`): whatever the query, the
intent and the validation outcome, entity extraction fills the `tableName`
slot — from the regex capture if a marker matches, otherwise copied from
`context.currentTable` — so the `missing-table` clarification is never
produced for such sessions. -/
theorem tableName_filled_from_context (q oq : List Char) (dates : RelDates)
    (intent : IntentType) (ctx : ConversationContext) (t : List Char)
    (v : ValidationResult) (h1 : ctx.currentTable = some t) (h2 : t ≠ []) :
    truthyStr ((processRelativeValues (extractEntities q intent ctx) oq
      dates).tableName) = true ∧
    ∀ c ∈ determineClarifications intent
        (processRelativeValues (extractEntities q intent ctx) oq dates) v,
      c.type ≠ ClarificationType.missing_table := by
  have htr : truthyStr ((processRelativeValues (extractEntities q intent ctx)
      oq dates).tableName) = true := by
    rw [processRelativeValues_tableName]
    exact extractEntities_tableName_truthy q intent ctx t h1 h2
  exact ⟨htr, missing_table_needs_empty_slot intent _ v htr⟩

/-- A session context whose current table is `"tareas"`. -/
def c10Ctx : ConversationContext :=
  { createNewContext ("s".toList) ("u".toList) with
    currentTable := some ("tareas".toList) }

/-- A session context whose current table is set to the empty string. -/
def c10EmptyCtx : ConversationContext :=
  { createNewContext ("s".toList) ("u".toList) with currentTable := some [] }

def c10Validation : ValidationResult := ⟨true, [], [], []⟩

/-- Witness for `tableName_filled_from_context`: table-requiring intent,
query with no table marker, current table `"tareas"`. -/
theorem tableName_filled_from_context_witness :
    truthyStr ((processRelativeValues
      (extractEntities ("x".toList) .LIST_RECORDS c10Ctx) ("x".toList)
      sampleDates).tableName) = true ∧
    ∀ c ∈ determineClarifications .LIST_RECORDS
        (processRelativeValues (extractEntities ("x".toList) .LIST_RECORDS c10Ctx)
          ("x".toList) sampleDates) c10Validation,
      c.type ≠ ClarificationType.missing_table :=
  tableName_filled_from_context ("x".toList) ("x".toList) sampleDates
    .LIST_RECORDS c10Ctx ("tareas".toList) c10Validation rfl (by decide)

/-- C10 (counterexample to the claim as stated): a context whose
`currentTable` *is* set — to the empty string, which JS truthiness rejects —
leaves the `tableName` slot unfilled on a marker-free query, and the
`missing-table` clarification is produced. -/
theorem emptyCurrentTable_missing_table :
    c10EmptyCtx.currentTable.isSome = true ∧
    (extractEntities ("x".toList) .LIST_RECORDS c10EmptyCtx).tableName = none ∧
    ((determineClarifications .LIST_RECORDS
        (extractEntities ("x".toList) .LIST_RECORDS c10EmptyCtx)
        c10Validation).map (fun c => c.type)) =
      [ClarificationType.missing_table] := by
  decide
